import Mathlib

/-!
Verification development for the cms-backend asynchronous website-generation
pipeline.  The definitions below are a shallow embedding of the queue worker
(`src/queue/processors/website.processor.ts`, `processGenerateWebsite` /
`processGenerateMoreBlogs` / `generatePageContent`), the queue service
(`src/queue/website-queue.service.ts`) and the `generate-more-blogs` route of
`src/websites/websites.routes.ts`.  Database rows are modelled as lists of
records with `Nat` identifiers; the remote AI generator, the random subdomain
suffix and infrastructure failures are supplied by an explicit environment.
-/

namespace CmsBackend

/-- `DomainStatus` enum from the Prisma schema. -/
inductive DomainStatus
  | PENDING
  | ACTIVE
  | INACTIVE
  | SUSPENDED
deriving DecidableEq, Repr

/-- A `domains` row (fields used by the pipeline). -/
structure Domain where
  id : Nat
  domainName : String
  status : DomainStatus
  selectedMeaning : Option String
deriving DecidableEq, Repr

/-- A `websites` row; `domainId` is unique (one website per domain). -/
structure Website where
  id : Nat
  domainId : Nat
  subdomain : String
  templateKey : String
  contactFormEnabled : Bool
deriving DecidableEq, Repr

/-- A `pages` row. -/
structure Page where
  id : Nat
  websiteId : Nat
  slug : String
  seoTitle : String
  seoDescription : String
deriving DecidableEq, Repr

/-- A `sections` row; `orderIndex` is the display position within a page. -/
structure Section where
  id : Nat
  pageId : Nat
  sectionType : String
  orderIndex : Nat
deriving DecidableEq, Repr

/-- The JSON payload shapes the worker stores in `content_blocks.content_json`
(`JSON.stringify` of the corresponding object literal). -/
inductive BlockContent
  | titleText (text : String)
  | fullText (text : String)
  | previewText (text : String)
  | imageRef (url : String) (alt : String)
deriving DecidableEq, Repr

/-- A `content_blocks` row. -/
structure ContentBlock where
  id : Nat
  sectionId : Nat
  blockType : String
  content : BlockContent
deriving DecidableEq, Repr

/-- The relational store (Content Store).  `nextId` feeds fresh row ids. -/
structure Db where
  domains : List Domain
  websites : List Website
  pages : List Page
  sections : List Section
  blocks : List ContentBlock
  nextId : Nat
deriving DecidableEq, Repr

/-- Errors thrown by the worker or injected by the environment. -/
inductive JsErr
  | domainNotFound
  | websiteNotFound
  | undefinedAccess
  | remote (tag : Nat)
deriving DecidableEq, Repr

/-- Kinds of remote content-generator calls. -/
inductive RemoteKind
  | titles
  | blog
  | image
deriving DecidableEq, Repr

/-- Kinds of rows the worker creates. -/
inductive EntityKind
  | website
  | page
  | pageSection
  | contentBlock
deriving DecidableEq, Repr

/-- Observable events of one job run: progress reports, remote-generator
calls, and row creations. -/
inductive Event
  | progress (value : ℚ)
  | remoteCall (kind : RemoteKind)
  | created (kind : EntityKind)
deriving DecidableEq, Repr

/-- Is this event a row creation? -/
def Event.isCreated : Event → Bool
  | .created _ => true
  | _ => false

/-- Is this event a remote-generator call? -/
def Event.isRemoteCall : Event → Bool
  | .remoteCall _ => true
  | _ => false

/-- The progress values reported in an event list, in order. -/
def progressSeq (evs : List Event) : List ℚ :=
  evs.filterMap fun e =>
    match e with
    | .progress q => some q
    | _ => none

/-- Bull job options view: `opts.attempts` (absent means undefined). -/
structure JobOpts where
  attempts : Option Nat
deriving DecidableEq, Repr

/-- The slice of a Bull job the processor reads and mutates. -/
structure JobView where
  attemptsMade : Nat
  opts : JobOpts
deriving DecidableEq, Repr

/-- JS `job.opts.attempts || 1` (undefined and 0 are falsy). -/
def attemptsOr1 : Option Nat → Nat
  | none => 1
  | some k => if k = 0 then 1 else k

/-- Bull retries a failed attempt while `attemptsMade + 1` is below the
configured attempt budget (external queue-library semantics). -/
def JobView.willRetry (j : JobView) : Bool :=
  decide (j.attemptsMade + 1 < attemptsOr1 j.opts.attempts)

/-- Mutable state threaded through one job run. -/
structure RunSt where
  db : Db
  events : List Event
  job : JobView
deriving DecidableEq, Repr

/-- State-and-exception monad for the worker: JS mutations persist even when
an exception is thrown, so the state is returned alongside the `Except`. -/
def M (α : Type) : Type :=
  RunSt → Except JsErr α × RunSt

instance : Monad M where
  pure a := fun s => (.ok a, s)
  bind x f := fun s =>
    match x s with
    | (.ok a, s') => f a s'
    | (.error e, s') => (.error e, s')

/-- JS `throw`. -/
def M.throw (e : JsErr) : M α := fun s => (.error e, s)

/-- JS `try ... catch`: the handler sees the state at the throw point. -/
def M.tryCatch (x : M α) (h : JsErr → M α) : M α := fun s =>
  match x s with
  | (.ok a, s') => (.ok a, s')
  | (.error e, s') => h e s'

/-- Read the current database. -/
def M.getDb : M Db := fun s => (.ok s.db, s)

/-- Read the current job view. -/
def M.getJob : M JobView := fun s => (.ok s.job, s)

/-- `job.opts.attempts = n` (the non-retryable-error mutation). -/
def M.setJobAttempts (o : Option Nat) : M Unit := fun s =>
  (.ok (), { s with job := { s.job with opts := { attempts := o } } })

/-- Record an event. -/
def M.emit (ev : Event) : M Unit := fun s =>
  (.ok (), { s with events := s.events ++ [ev] })

/-- `await job.progress(v)`. -/
def M.progress (v : ℚ) : M Unit := M.emit (.progress v)

/-! ### Content Store queries and writes -/

/-- `prisma.domain.findUnique({ where: { id } })`. -/
def Db.findDomain (db : Db) (i : Nat) : Option Domain :=
  db.domains.find? fun d => d.id == i

/-- `prisma.website.findUnique({ where: { domainId } })` (unique key). -/
def Db.findWebsiteByDomain (db : Db) (i : Nat) : Option Website :=
  db.websites.find? fun w => w.domainId == i

/-- `prisma.website.findUnique({ where: { id } })`. -/
def Db.findWebsiteById (db : Db) (i : Nat) : Option Website :=
  db.websites.find? fun w => w.id == i

/-- The `pages` relation of a website filtered by `{ slug: '/' }`. -/
def Db.homePages (db : Db) (websiteId : Nat) : List Page :=
  db.pages.filter fun p => p.websiteId == websiteId && p.slug == "/"

/-- The `sections` relation of a page. -/
def Db.sectionsOfPage (db : Db) (pageId : Nat) : List Section :=
  db.sections.filter fun s => s.pageId == pageId

/-- `prisma.domain.update({ where: { id }, data: { status } })` restricted to
the status field (the only field the worker updates). -/
def Db.updateDomainStatus (db : Db) (i : Nat) (st : DomainStatus) : Db :=
  { db with domains := db.domains.map fun d =>
      if d.id == i then { d with status := st } else d }

/-- `prisma.website.deleteMany({ where: { domainId } })` with the schema's
`ON DELETE CASCADE` chain website → pages → sections → content blocks. -/
def Db.deleteWebsitesByDomain (db : Db) (i : Nat) : Db :=
  let wIds := (db.websites.filter fun w => w.domainId == i).map (·.id)
  let pIds := (db.pages.filter fun p => wIds.contains p.websiteId).map (·.id)
  let sIds := (db.sections.filter fun s => pIds.contains s.pageId).map (·.id)
  { db with
    websites := db.websites.filter fun w => !(w.domainId == i)
    pages := db.pages.filter fun p => !(wIds.contains p.websiteId)
    sections := db.sections.filter fun s => !(pIds.contains s.pageId)
    blocks := db.blocks.filter fun b => !(sIds.contains b.sectionId) }

/-- `prisma.website.create`. -/
def dbCreateWebsite (domainId : Nat) (subdomain templateKey : String)
    (contactFormEnabled : Bool) : M Website := fun s =>
  let w : Website :=
    { id := s.db.nextId, domainId := domainId, subdomain := subdomain
      templateKey := templateKey, contactFormEnabled := contactFormEnabled }
  (.ok w,
    { s with
      db := { s.db with websites := s.db.websites ++ [w], nextId := s.db.nextId + 1 }
      events := s.events ++ [.created .website] })

/-- `prisma.page.create`. -/
def dbCreatePage (websiteId : Nat) (slug seoTitle seoDescription : String) :
    M Page := fun s =>
  let p : Page :=
    { id := s.db.nextId, websiteId := websiteId, slug := slug
      seoTitle := seoTitle, seoDescription := seoDescription }
  (.ok p,
    { s with
      db := { s.db with pages := s.db.pages ++ [p], nextId := s.db.nextId + 1 }
      events := s.events ++ [.created .page] })

/-- `prisma.section.create`. -/
def dbCreateSection (pageId : Nat) (sectionType : String) (orderIndex : Nat) :
    M Section := fun s =>
  let sec : Section :=
    { id := s.db.nextId, pageId := pageId
      sectionType := sectionType, orderIndex := orderIndex }
  (.ok sec,
    { s with
      db := { s.db with sections := s.db.sections ++ [sec], nextId := s.db.nextId + 1 }
      events := s.events ++ [.created .pageSection] })

/-- `prisma.contentBlock.createMany` with the worker's four blocks
(title, full text, preview, image). -/
def dbCreateBlocks (sectionId : Nat) (title full preview url : String) :
    M Unit := fun s =>
  let n := s.db.nextId
  let bs : List ContentBlock :=
    [ { id := n, sectionId := sectionId, blockType := "text"
        content := .titleText title }
    , { id := n + 1, sectionId := sectionId, blockType := "text"
        content := .fullText full }
    , { id := n + 2, sectionId := sectionId, blockType := "text"
        content := .previewText preview }
    , { id := n + 3, sectionId := sectionId, blockType := "image"
        content := .imageRef url title } ]
  (.ok (),
    { s with
      db := { s.db with blocks := s.db.blocks ++ bs, nextId := n + 4 }
      events := s.events ++ [.created .contentBlock] })

/-- `prisma.domain.update` of the status field, lifted into the run monad. -/
def dbUpdateDomainStatus (i : Nat) (st : DomainStatus) : M Unit := fun s =>
  (.ok (), { s with db := s.db.updateDomainStatus i st })

/-- `prisma.website.deleteMany({ where: { domainId } })` in the run monad. -/
def dbDeleteWebsitesByDomain (i : Nat) : M Unit := fun s =>
  (.ok (), { s with db := s.db.deleteWebsitesByDomain i })

/-! ### Environment: remote generator oracle, random suffix, injected faults -/

/-- Oracle for the remote content generator (`AiService`): each call either
returns a payload or throws.  Blog and image calls are indexed by the loop
position and the string argument the worker passes. -/
structure AiEnv where
  titles : String → Nat → Except JsErr (List String)
  blog : Nat → String → Except JsErr String
  image : Nat → String → Except JsErr String

/-- Failure injection for the three Content Store operations of the
compensating-cleanup block (`none` means the operation succeeds). -/
structure CleanupEnv where
  deleteWebsitesFails : Option JsErr
  findDomainFails : Option JsErr
  updateDomainFails : Option JsErr

/-- Full run environment; `rand` is the value of
`Math.random().toString(36).substring(2, 6)`. -/
structure Env where
  ai : AiEnv
  cleanup : CleanupEnv
  rand : String

/-- Throw the injected error, if any. -/
def injectFault : Option JsErr → M Unit
  | none => pure ()
  | some e => M.throw e

/-- `aiService.generateTitle(topic, quantity)` (remote call). -/
def aiGenerateTitle (env : Env) (topic : String) (quantity : Nat) :
    M (List String) := fun s =>
  let s' := { s with events := s.events ++ [.remoteCall .titles] }
  match env.ai.titles topic quantity with
  | .ok ts => (.ok ts, s')
  | .error e => (.error e, s')

/-- `aiService.generateBlogContent(title)` (remote call, indexed by loop
position). -/
def aiGenerateBlogContent (env : Env) (i : Nat) (title : String) :
    M String := fun s =>
  let s' := { s with events := s.events ++ [.remoteCall .blog] }
  match env.ai.blog i title with
  | .ok c => (.ok c, s')
  | .error e => (.error e, s')

/-- `aiService.generateImage(prompt)` (remote call, indexed by loop
position). -/
def aiGenerateImage (env : Env) (i : Nat) (prompt : String) :
    M String := fun s =>
  let s' := { s with events := s.events ++ [.remoteCall .image] }
  match env.ai.image i prompt with
  | .ok u => (.ok u, s')
  | .error e => (.error e, s')

/-! ### The generation worker -/

/-- JS `domainName.split('.')[0]`: the prefix of the string before its first
dot (the whole string when it contains no dot). -/
def jsFirstLabel (s : String) : String :=
  String.mk (s.data.takeWhile fun c => c ≠ '.')

/-- JS global regex replace of every dash by a space. -/
def jsDashesToSpaces (s : String) : String :=
  String.mk (s.data.map fun c => if c = '-' then ' ' else c)

/-- The topic string passed to title generation: the first label of the
domain name with every dash replaced by a space (the source's global regex
replace), and the domain's `selectedMeaning` appended after a dash when
present. -/
def titleTopicOf (domainName : String) (selectedMeaning : Option String) : String :=
  let domainTopic := jsDashesToSpaces (jsFirstLabel domainName)
  match selectedMeaning with
  | some m => domainTopic ++ " - " ++ m
  | none => domainTopic

/-- Progress reported after blog `i` of `n` in `generatePageContent`:
`50 + ((i + 1) / titles.length) * 30`. -/
def gwProgressVal (n i : Nat) : ℚ :=
  50 + (((i : ℚ) + 1) / (n : ℚ)) * 30

/-- Progress reported after blog `i` of `n` in `processGenerateMoreBlogs`:
`40 + ((i + 1) / titles.length) * 50`. -/
def mbProgressVal (n i : Nat) : ℚ :=
  40 + (((i : ℚ) + 1) / (n : ℚ)) * 50

/-- The per-title loop of `generatePageContent`: generate body text, derive
the 300-character preview, generate an image, persist one section (type
`content`, order index `i`) with four content blocks, then report progress. -/
def contentLoopGW (env : Env) (pageId n : Nat) : Nat → List String → M Unit
  | _, [] => pure ()
  | i, title :: rest => do
    let blogContent ← aiGenerateBlogContent env i title
    let preview := blogContent.take 300 ++ "..."
    let imageUrl ← aiGenerateImage env i ("Professional image for: " ++ title)
    let sec ← dbCreateSection pageId "content" i
    dbCreateBlocks sec.id title blogContent preview imageUrl
    M.progress (gwProgressVal n i)
    contentLoopGW env pageId n (i + 1) rest

/-- `generatePageContent(pageId, domainName, job, selectedMeaning)`. -/
def generatePageContent (env : Env) (pageId : Nat) (domainName : String)
    (selectedMeaning : Option String) : M Unit := do
  let titleTopic := titleTopicOf domainName selectedMeaning
  let titles ← aiGenerateTitle env titleTopic 3
  M.progress 50
  contentLoopGW env pageId titles.length 0 titles

/-- `generate-website` job payload. -/
structure WebsiteGenerationJob where
  domainId : Nat
  userId : Nat
  templateKey : String
  contactFormEnabled : Bool
deriving DecidableEq, Repr

/-- Result object of `processGenerateWebsite` (`alreadyExisted` is absent —
hence falsy — on the fresh-creation path). -/
structure GenWebsiteResult where
  success : Bool
  websiteId : Nat
  subdomain : String
  message : String
  alreadyExisted : Bool
deriving DecidableEq, Repr

/-- The `try` block of `processGenerateWebsite`. -/
def genWebsiteBody (env : Env) (data : WebsiteGenerationJob) :
    M GenWebsiteResult := do
  M.progress 10
  let db ← M.getDb
  match db.findDomain data.domainId with
  | none => do
    let j ← M.getJob
    match j.opts.attempts with
    | some k => if k ≠ 0 then M.setJobAttempts (some 1) else pure ()
    | none => pure ()
    M.throw .domainNotFound
  | some domain => do
    M.progress 20
    let db ← M.getDb
    match db.findWebsiteByDomain data.domainId with
    | some existingWebsite =>
      pure { success := true, websiteId := existingWebsite.id
             subdomain := existingWebsite.subdomain
             message := "Website already generated (idempotent)"
             alreadyExisted := true }
    | none => do
      let subdomain := jsFirstLabel domain.domainName ++ "-" ++ env.rand
      let website ← dbCreateWebsite data.domainId subdomain data.templateKey
        data.contactFormEnabled
      M.progress 30
      let homePage ← dbCreatePage website.id "/"
        (domain.domainName ++ " - Home") ("Welcome to " ++ domain.domainName)
      M.progress 40
      generatePageContent env homePage.id domain.domainName domain.selectedMeaning
      M.progress 90
      dbUpdateDomainStatus data.domainId .ACTIVE
      M.progress 100
      pure { success := true, websiteId := website.id, subdomain := subdomain
             message := "Website generated successfully", alreadyExisted := false }

/-- The compensating-cleanup block run on the final failed attempt: delete
the domain's website (cascade), then reset the domain's status to `PENDING`
only if the domain still exists; its own errors are caught and only logged. -/
def cleanupGenWebsite (env : Env) (domainId : Nat) : M Unit :=
  M.tryCatch
    (do
      injectFault env.cleanup.deleteWebsitesFails
      dbDeleteWebsitesByDomain domainId
      injectFault env.cleanup.findDomainFails
      let db ← M.getDb
      match db.findDomain domainId with
      | some _ => do
        injectFault env.cleanup.updateDomainFails
        dbUpdateDomainStatus domainId .PENDING
      | none => pure ())
    (fun _ => pure ())

/-- `processGenerateWebsite`: the body wrapped in `try/catch`; on an error of
the final permitted attempt it performs compensating cleanup, then always
rethrows the original error. -/
def processGenerateWebsite (env : Env) (data : WebsiteGenerationJob) :
    M GenWebsiteResult :=
  M.tryCatch (genWebsiteBody env data)
    (fun e => do
      let j ← M.getJob
      if j.attemptsMade + 1 ≥ attemptsOr1 j.opts.attempts then
        cleanupGenWebsite env data.domainId
      else
        pure ()
      M.throw e)

/-- Run `processGenerateWebsite` from an initial store, job view and empty
event log. -/
def runGenWebsite (env : Env) (data : WebsiteGenerationJob) (job : JobView)
    (db : Db) : Except JsErr GenWebsiteResult × RunSt :=
  processGenerateWebsite env data { db := db, events := [], job := job }

/-- `generate-more-blogs` job payload (`quantity` optional, defaulted to 3 by
the destructuring `const { websiteId, quantity = 3 } = job.data`). -/
structure MoreBlogsJob where
  websiteId : Nat
  userId : Nat
  quantity : Option Nat
deriving DecidableEq, Repr

/-- Result object of `processGenerateMoreBlogs`. -/
structure MoreBlogsResult where
  success : Bool
  blogsGenerated : Nat
deriving DecidableEq, Repr

/-- The per-title loop of `processGenerateMoreBlogs`: identical to the
website loop except sections are appended at `currentMaxOrder + i + 1` and
progress is `40 + ((i + 1) / titles.length) * 50`. -/
def contentLoopMB (env : Env) (pageId currentMaxOrder n : Nat) :
    Nat → List String → M Unit
  | _, [] => pure ()
  | i, title :: rest => do
    let blogContent ← aiGenerateBlogContent env i title
    let preview := blogContent.take 300 ++ "..."
    let imageUrl ← aiGenerateImage env i ("Professional image for: " ++ title)
    let sec ← dbCreateSection pageId "content" (currentMaxOrder + i + 1)
    dbCreateBlocks sec.id title blogContent preview imageUrl
    M.progress (mbProgressVal n i)
    contentLoopMB env pageId currentMaxOrder n (i + 1) rest

/-- The `try` block of `processGenerateMoreBlogs`.  The home page is
`website.pages[0]` of the pages filtered by `{ slug: '/' }`; dereferencing it
when the filter came back empty is the JS `TypeError` modelled by
`undefinedAccess`.  `currentMaxOrder` is `Math.max(...orderIndexes, 0)`. -/
def moreBlogsBody (env : Env) (data : MoreBlogsJob) : M MoreBlogsResult := do
  let quantity := data.quantity.getD 3
  M.progress 10
  let db ← M.getDb
  match db.findWebsiteById data.websiteId with
  | none => M.throw .websiteNotFound
  | some website => do
    M.progress 20
    match db.homePages website.id with
    | [] => M.throw .undefinedAccess
    | homePage :: _ => do
      let currentMaxOrder :=
        ((db.sectionsOfPage homePage.id).map (·.orderIndex)).foldr max 0
      match db.findDomain website.domainId with
      | none => M.throw .undefinedAccess
      | some domain => do
        let titleTopic := titleTopicOf domain.domainName domain.selectedMeaning
        let titles ← aiGenerateTitle env titleTopic quantity
        M.progress 40
        contentLoopMB env homePage.id currentMaxOrder titles.length 0 titles
        M.progress 100
        pure { success := true, blogsGenerated := quantity }

/-- `processGenerateMoreBlogs`: the body in a `try/catch` whose handler only
logs and rethrows (no compensating cleanup for this job type). -/
def processGenerateMoreBlogs (env : Env) (data : MoreBlogsJob) :
    M MoreBlogsResult :=
  M.tryCatch (moreBlogsBody env data) (fun e => M.throw e)

/-- Run `processGenerateMoreBlogs` from an initial store, job view and empty
event log. -/
def runMoreBlogs (env : Env) (data : MoreBlogsJob) (job : JobView) (db : Db) :
    Except JsErr MoreBlogsResult × RunSt :=
  processGenerateMoreBlogs env data { db := db, events := [], job := job }

/-! ### Queue control surface (`website-queue.service.ts` and the
`generate-more-blogs` route) -/

/-- Bull job lifecycle states (external queue-library semantics). -/
inductive JobState
  | waiting
  | delayed
  | active
  | completed
  | failed
deriving DecidableEq, Repr

/-- A job as the queue sees it for cancellation purposes. -/
structure QueuedJob where
  id : Nat
  state : JobState
deriving DecidableEq, Repr

/-- The queue's job collection. -/
structure QueueSt where
  jobs : List QueuedJob
deriving DecidableEq, Repr

/-- `this.websiteQueue.getJob(jobId)` (resolves `null` when unknown). -/
def getQueueJob (q : QueueSt) (jobId : Nat) : Option QueuedJob :=
  q.jobs.find? fun j => j.id == jobId

/-- `job.remove()`. -/
def removeQueueJob (q : QueueSt) (jobId : Nat) : QueueSt :=
  { jobs := q.jobs.filter fun j => !(j.id == jobId) }

/-- `WebsiteQueueService.cancelJob(jobId)`: returns `false` for an unknown
id; otherwise removes the job and returns `true` exactly when its state is
`waiting`, `delayed` or `active`. -/
def cancelJob (q : QueueSt) (jobId : Nat) : Bool × QueueSt :=
  match getQueueJob q jobId with
  | none => (false, q)
  | some job =>
    if job.state = .waiting ∨ job.state = .delayed ∨ job.state = .active then
      (true, removeQueueJob q jobId)
    else
      (false, q)

/-- A pending `generate-more-blogs` job record as enqueued by
`addGenerateMoreBlogsJob` (with `attempts: 2`). -/
structure PendingMoreBlogsJob where
  jobId : Nat
  data : MoreBlogsJob
  attempts : Nat
deriving DecidableEq, Repr

/-- The pending side of the queue used by the enqueue path. -/
structure MoreBlogsQueue where
  pending : List PendingMoreBlogsJob
  nextJobId : Nat
deriving DecidableEq, Repr

/-- `addGenerateMoreBlogsJob(websiteId, userId, quantity)`: unconditionally
adds the job (no Content Store lookup) and returns its id. -/
def addGenerateMoreBlogsJob (q : MoreBlogsQueue) (websiteId userId quantity : Nat) :
    Nat × MoreBlogsQueue :=
  let job : PendingMoreBlogsJob :=
    { jobId := q.nextJobId
      data := { websiteId := websiteId, userId := userId, quantity := some quantity }
      attempts := 2 }
  (q.nextJobId, { pending := q.pending ++ [job], nextJobId := q.nextJobId + 1 })

/-- The request's optional `quantity` field (restricted to integers, the only
shape the claims concern). -/
inductive QuantityField
  | missing
  | given (n : Int)
deriving DecidableEq, Repr

/-- The express-validator chain
`body('quantity').optional().isInt({ min: 1, max: 20 })`. -/
def quantityValid : QuantityField → Bool
  | .missing => true
  | .given n => decide (1 ≤ n ∧ n ≤ 20)

/-- Route-level rejection produced by the validation middleware. -/
inductive RouteErr
  | validationFailed
deriving DecidableEq, Repr

/-- The `POST /websites/:websiteId/generate-more-blogs` handler:
`param('websiteId').isUUID()` is the boolean `websiteIdIsUuid` (ids are
abstract here), the quantity must pass `quantityValid`, then the handler
computes `req.body.quantity || 3` and enqueues — there is no check that the
website exists. -/
def generateMoreBlogsRoute (q : MoreBlogsQueue) (websiteIdIsUuid : Bool)
    (websiteId userId : Nat) (qf : QuantityField) :
    Except RouteErr (Nat × MoreBlogsQueue) :=
  if websiteIdIsUuid && quantityValid qf then
    let quantity : Nat :=
      match qf with
      | .missing => 3
      | .given n => if n = 0 then 3 else n.toNat
    .ok (addGenerateMoreBlogsJob q websiteId userId quantity)
  else
    .error .validationFailed

/-- Freshness of the id counter: every row id and foreign key already in the
store is below `nextId`, so newly created rows never collide with existing
ones. -/
def Db.Fresh (db : Db) : Prop :=
  (∀ d ∈ db.domains, d.id < db.nextId) ∧
  (∀ w ∈ db.websites, w.id < db.nextId ∧ w.domainId < db.nextId) ∧
  (∀ p ∈ db.pages, p.id < db.nextId ∧ p.websiteId < db.nextId) ∧
  (∀ s ∈ db.sections, s.id < db.nextId ∧ s.pageId < db.nextId) ∧
  (∀ b ∈ db.blocks, b.id < db.nextId ∧ b.sectionId < db.nextId)

instance (db : Db) : Decidable db.Fresh := by
  unfold Db.Fresh
  infer_instance

/-! ### Concrete fixtures for witnesses and counterexamples -/

/-- An environment whose remote generator always fails (used to exercise
failure paths on concrete inputs). -/
def envRemoteDown : Env :=
  { ai :=
      { titles := fun _ _ => .error (.remote 0)
        blog := fun _ _ => .error (.remote 0)
        image := fun _ _ => .error (.remote 0) }
    cleanup := { deleteWebsitesFails := none, findDomainFails := none
                 updateDomainFails := none }
    rand := "ab12" }

/-- An environment whose remote generator always succeeds, returning three
fixed titles and fixed blog text and image URLs. -/
def envAllOk : Env :=
  { ai :=
      { titles := fun _ q => .ok ((List.range q).map fun i => "Title " ++ toString i)
        blog := fun i _ => .ok ("Blog body " ++ toString i)
        image := fun i _ => .ok ("https://img/" ++ toString i) }
    cleanup := { deleteWebsitesFails := none, findDomainFails := none
                 updateDomainFails := none }
    rand := "ab12" }

/-- An empty store. -/
def dbEmpty : Db :=
  { domains := [], websites := [], pages := [], sections := [], blocks := []
    nextId := 0 }

/-- A store holding one pending domain `example.com` and nothing else. -/
def dbOneDomain : Db :=
  { domains := [{ id := 0, domainName := "example.com", status := .PENDING
                  selectedMeaning := none }]
    websites := [], pages := [], sections := [], blocks := [], nextId := 1 }

/-- `dbOneDomain` plus an already generated website for that domain. -/
def dbDomainWithWebsite : Db :=
  { dbOneDomain with
    websites := [{ id := 1, domainId := 0, subdomain := "example-zz99"
                   templateKey := "modernNews", contactFormEnabled := true }]
    nextId := 2 }

/-- A store with a website whose home page already holds two sections, at
order indices 0 and 4 (so the current maximum is 4). -/
def dbWebsiteWithHome : Db :=
  { domains := [{ id := 0, domainName := "example.com", status := .ACTIVE
                  selectedMeaning := none }]
    websites := [{ id := 1, domainId := 0, subdomain := "example-zz99"
                   templateKey := "modernNews", contactFormEnabled := true }]
    pages := [{ id := 2, websiteId := 1, slug := "/"
                seoTitle := "example.com - Home"
                seoDescription := "Welcome to example.com" }]
    sections := [ { id := 3, pageId := 2, sectionType := "content", orderIndex := 0 }
                , { id := 4, pageId := 2, sectionType := "content", orderIndex := 4 } ]
    blocks := [], nextId := 5 }

/-- Like `dbWebsiteWithHome` but with no page at slug `/`. -/
def dbWebsiteNoHome : Db :=
  { dbWebsiteWithHome with pages := [], sections := [] }

/-- A fresh job view as enqueued (`attempts: 2`, first attempt). -/
def jobFirstOf2 : JobView := { attemptsMade := 0, opts := { attempts := some 2 } }

/-- A job view on its second and final attempt (`attempts: 2`). -/
def jobSecondOf2 : JobView := { attemptsMade := 1, opts := { attempts := some 2 } }

/-! ### Execution equations for the run monad and primitives -/

@[simp] theorem run_bind (x : M α) (f : α → M β) (s : RunSt) :
    (x >>= f) s =
      match x s with
      | (.ok a, s') => f a s'
      | (.error e, s') => (.error e, s') := rfl

@[simp] theorem run_pure (a : α) (s : RunSt) :
    (pure a : M α) s = (.ok a, s) := rfl

@[simp] theorem run_throw (e : JsErr) (s : RunSt) :
    (M.throw e : M α) s = (.error e, s) := rfl

@[simp] theorem run_tryCatch (x : M α) (h : JsErr → M α) (s : RunSt) :
    M.tryCatch x h s =
      match x s with
      | (.ok a, s') => (.ok a, s')
      | (.error e, s') => h e s' := rfl

@[simp] theorem run_getDb (s : RunSt) : M.getDb s = (.ok s.db, s) := rfl

@[simp] theorem run_getJob (s : RunSt) : M.getJob s = (.ok s.job, s) := rfl

@[simp] theorem run_setJobAttempts (o : Option Nat) (s : RunSt) :
    M.setJobAttempts o s =
      (.ok (), { s with job := { s.job with opts := { attempts := o } } }) := rfl

@[simp] theorem run_emit (ev : Event) (s : RunSt) :
    M.emit ev s = (.ok (), { s with events := s.events ++ [ev] }) := rfl

@[simp] theorem run_progress (v : ℚ) (s : RunSt) :
    M.progress v s = (.ok (), { s with events := s.events ++ [.progress v] }) := rfl

@[simp] theorem run_dbCreateWebsite (d : Nat) (sub tk : String) (c : Bool) (s : RunSt) :
    dbCreateWebsite d sub tk c s =
      (.ok { id := s.db.nextId, domainId := d, subdomain := sub
             templateKey := tk, contactFormEnabled := c },
       { s with
         db := { s.db with
                 websites := s.db.websites ++
                   [{ id := s.db.nextId, domainId := d, subdomain := sub
                      templateKey := tk, contactFormEnabled := c }]
                 nextId := s.db.nextId + 1 }
         events := s.events ++ [.created .website] }) := rfl

@[simp] theorem run_dbCreatePage (w : Nat) (sl ti de : String) (s : RunSt) :
    dbCreatePage w sl ti de s =
      (.ok { id := s.db.nextId, websiteId := w, slug := sl
             seoTitle := ti, seoDescription := de },
       { s with
         db := { s.db with
                 pages := s.db.pages ++
                   [{ id := s.db.nextId, websiteId := w, slug := sl
                      seoTitle := ti, seoDescription := de }]
                 nextId := s.db.nextId + 1 }
         events := s.events ++ [.created .page] }) := rfl

@[simp] theorem run_dbCreateSection (p : Nat) (ty : String) (oi : Nat) (s : RunSt) :
    dbCreateSection p ty oi s =
      (.ok { id := s.db.nextId, pageId := p, sectionType := ty, orderIndex := oi },
       { s with
         db := { s.db with
                 sections := s.db.sections ++
                   [{ id := s.db.nextId, pageId := p, sectionType := ty, orderIndex := oi }]
                 nextId := s.db.nextId + 1 }
         events := s.events ++ [.created .pageSection] }) := rfl

@[simp] theorem run_dbCreateBlocks (sec : Nat) (t f pv u : String) (s : RunSt) :
    dbCreateBlocks sec t f pv u s =
      (.ok (),
       { s with
         db := { s.db with
                 blocks := s.db.blocks ++
                   [ { id := s.db.nextId, sectionId := sec, blockType := "text"
                       content := .titleText t }
                   , { id := s.db.nextId + 1, sectionId := sec, blockType := "text"
                       content := .fullText f }
                   , { id := s.db.nextId + 2, sectionId := sec, blockType := "text"
                       content := .previewText pv }
                   , { id := s.db.nextId + 3, sectionId := sec, blockType := "image"
                       content := .imageRef u t } ]
                 nextId := s.db.nextId + 4 }
         events := s.events ++ [.created .contentBlock] }) := rfl

@[simp] theorem run_dbUpdateDomainStatus (i : Nat) (st : DomainStatus) (s : RunSt) :
    dbUpdateDomainStatus i st s =
      (.ok (), { s with db := s.db.updateDomainStatus i st }) := rfl

@[simp] theorem run_dbDeleteWebsitesByDomain (i : Nat) (s : RunSt) :
    dbDeleteWebsitesByDomain i s =
      (.ok (), { s with db := s.db.deleteWebsitesByDomain i }) := rfl

@[simp] theorem run_injectFault_none (s : RunSt) :
    injectFault none s = (.ok (), s) := rfl

@[simp] theorem run_injectFault_some (e : JsErr) (s : RunSt) :
    injectFault (some e) s = (.error e, s) := rfl

@[simp] theorem run_aiGenerateTitle (env : Env) (t : String) (q : Nat) (s : RunSt) :
    aiGenerateTitle env t q s =
      (match env.ai.titles t q with
       | .ok ts => Except.ok ts
       | .error e => Except.error e,
       { s with events := s.events ++ [.remoteCall .titles] }) := by
  unfold aiGenerateTitle
  cases env.ai.titles t q <;> rfl

@[simp] theorem run_aiGenerateBlogContent (env : Env) (i : Nat) (t : String) (s : RunSt) :
    aiGenerateBlogContent env i t s =
      (match env.ai.blog i t with
       | .ok c => Except.ok c
       | .error e => Except.error e,
       { s with events := s.events ++ [.remoteCall .blog] }) := by
  unfold aiGenerateBlogContent
  cases env.ai.blog i t <;> rfl

@[simp] theorem run_aiGenerateImage (env : Env) (i : Nat) (p : String) (s : RunSt) :
    aiGenerateImage env i p s =
      (match env.ai.image i p with
       | .ok u => Except.ok u
       | .error e => Except.error e,
       { s with events := s.events ++ [.remoteCall .image] }) := by
  unfold aiGenerateImage
  cases env.ai.image i p <;> rfl

/-! ### Claim C3 (corrected) -/

/-- C3 counterexample: a job in state `active` CAN be cancelled —
`cancelJob` returns `true` and removes it, contradicting the claim that
cancel returns `false` for an active job. -/
theorem cancelJob_active_returns_true :
    cancelJob { jobs := [{ id := 1, state := .active }] } 1 =
      (true, { jobs := [] }) := by
  decide

/-- C3 (amended): `cancelJob` returns `true` exactly when the job exists and
its state is `waiting`, `delayed` or `active` (an in-flight active run is
removed too); it returns `false` for `completed`, `failed` or unknown jobs,
leaving the queue untouched. -/
theorem cancelJob_state_characterization (q : QueueSt) (jobId : Nat) :
    ((cancelJob q jobId).1 = true ↔
      ∃ j, getQueueJob q jobId = some j ∧
        (j.state = .waiting ∨ j.state = .delayed ∨ j.state = .active)) ∧
    ((cancelJob q jobId).1 = true →
      (cancelJob q jobId).2 = removeQueueJob q jobId) ∧
    ((cancelJob q jobId).1 = false → (cancelJob q jobId).2 = q) := by
  unfold cancelJob
  cases h : getQueueJob q jobId with
  | none => simp
  | some j =>
    by_cases hs : j.state = .waiting ∨ j.state = .delayed ∨ j.state = .active
    · simp [hs]
    · simp [hs]

/-! ### Claim C9 (confirmed) -/

/-- C9: cancelling a job id unknown to the queue returns `false` and leaves
the queue unchanged — the same observable outcome as a non-cancellable job,
and no error is raised (the function is total). -/
theorem cancelJob_unknown_id (q : QueueSt) (jobId : Nat)
    (h : getQueueJob q jobId = none) :
    cancelJob q jobId = (false, q) := by
  unfold cancelJob
  rw [h]

/-- C9 witness: cancelling id 7 on an empty queue. -/
theorem cancelJob_unknown_id_witness :
    getQueueJob { jobs := [] } 7 = none ∧
    cancelJob { jobs := [] } 7 = (false, { jobs := [] }) :=
  ⟨by decide, cancelJob_unknown_id { jobs := [] } 7 (by decide)⟩

/-! ### Claim C8 (corrected) -/

/-- C8 counterexample: a submission naming an unknown website (but a
syntactically valid id) is NOT rejected at enqueue time: the route succeeds
and queues the job against an empty store, and the worker later fails it
with `websiteNotFound`. -/
theorem moreBlogs_unknown_website_is_queued :
    generateMoreBlogsRoute { pending := [], nextJobId := 1 } true 42 7 .missing =
      .ok (1, { pending := [{ jobId := 1
                              data := { websiteId := 42, userId := 7, quantity := some 3 }
                              attempts := 2 }]
                nextJobId := 2 }) ∧
    (runMoreBlogs envRemoteDown
        { websiteId := 42, userId := 7, quantity := some 3 }
        jobFirstOf2 dbEmpty).1 = .error .websiteNotFound := by
  constructor
  · rfl
  · rfl

/-- C8 (amended): at enqueue time a quantity outside 1–20 is rejected before
any job is added and an omitted quantity defaults to 3, but a submission
naming an unknown website is NOT rejected at enqueue time: it is queued
(only the id's UUID shape is validated) and the worker later fails the job
with a `Website not found` error. -/
theorem moreBlogs_enqueue_validation (q : MoreBlogsQueue) (wid uid : Nat)
    (n : Int) (env : Env) (jobv : JobView) (db : Db) :
    (¬(1 ≤ n ∧ n ≤ 20) →
      generateMoreBlogsRoute q true wid uid (.given n) = .error .validationFailed) ∧
    (generateMoreBlogsRoute q true wid uid .missing =
      .ok (q.nextJobId,
        { pending := q.pending ++
            [{ jobId := q.nextJobId
               data := { websiteId := wid, userId := uid, quantity := some 3 }
               attempts := 2 }]
          nextJobId := q.nextJobId + 1 })) ∧
    (db.findWebsiteById wid = none →
      (runMoreBlogs env { websiteId := wid, userId := uid, quantity := some 3 }
          jobv db).1 = .error .websiteNotFound) := by
  refine ⟨?_, ?_, ?_⟩
  · intro hbad
    unfold generateMoreBlogsRoute quantityValid
    simp [hbad]
  · unfold generateMoreBlogsRoute quantityValid addGenerateMoreBlogsJob
    simp
  · intro hnone
    unfold runMoreBlogs processGenerateMoreBlogs moreBlogsBody
    simp [M.tryCatch, hnone]

/-- C8 witness: the three amended conjuncts at quantity 21, an empty queue
and an empty store. -/
theorem moreBlogs_enqueue_validation_witness :
    generateMoreBlogsRoute { pending := [], nextJobId := 5 } true 3 4 (.given 21) =
      .error .validationFailed ∧
    generateMoreBlogsRoute { pending := [], nextJobId := 5 } true 3 4 .missing =
      .ok (5, { pending := [{ jobId := 5
                              data := { websiteId := 3, userId := 4, quantity := some 3 }
                              attempts := 2 }]
                nextJobId := 6 }) ∧
    (runMoreBlogs envRemoteDown { websiteId := 3, userId := 4, quantity := some 3 }
        jobFirstOf2 dbEmpty).1 = .error .websiteNotFound :=
  ⟨(moreBlogs_enqueue_validation { pending := [], nextJobId := 5 } 3 4 21
      envRemoteDown jobFirstOf2 dbEmpty).1 (by decide),
   (moreBlogs_enqueue_validation { pending := [], nextJobId := 5 } 3 4 21
      envRemoteDown jobFirstOf2 dbEmpty).2.1,
   (moreBlogs_enqueue_validation { pending := [], nextJobId := 5 } 3 4 21
      envRemoteDown jobFirstOf2 dbEmpty).2.2 (by decide)⟩

/-! ### Claim C1 (confirmed) -/

/-- C1: when a website already exists for the job's domain, the handler
returns success with the existing website's id and subdomain, flagged
`alreadyExisted := true`, leaves the store untouched, creates no row of any
kind and makes no remote-generator call. -/
theorem generateWebsite_idempotent_completion (env : Env)
    (data : WebsiteGenerationJob) (job : JobView) (db : Db)
    (dom : Domain) (w : Website)
    (hdom : db.findDomain data.domainId = some dom)
    (hweb : db.findWebsiteByDomain data.domainId = some w) :
    (runGenWebsite env data job db).1 =
      .ok { success := true, websiteId := w.id, subdomain := w.subdomain
            message := "Website already generated (idempotent)"
            alreadyExisted := true } ∧
    (runGenWebsite env data job db).2.db = db ∧
    (runGenWebsite env data job db).2.events.filter Event.isCreated = [] ∧
    (runGenWebsite env data job db).2.events.filter Event.isRemoteCall = [] := by
  unfold runGenWebsite processGenerateWebsite genWebsiteBody
  simp [M.tryCatch, hdom, hweb, Event.isCreated, Event.isRemoteCall]

/-- C1 witness: a duplicate `generate-website` job for the domain of
`dbDomainWithWebsite`. -/
theorem generateWebsite_idempotent_completion_witness :
    dbDomainWithWebsite.findDomain 0 =
      some { id := 0, domainName := "example.com", status := .PENDING
             selectedMeaning := none } ∧
    dbDomainWithWebsite.findWebsiteByDomain 0 =
      some { id := 1, domainId := 0, subdomain := "example-zz99"
             templateKey := "modernNews", contactFormEnabled := true } ∧
    (runGenWebsite envAllOk
        { domainId := 0, userId := 9, templateKey := "modernNews"
          contactFormEnabled := true } jobFirstOf2 dbDomainWithWebsite).1 =
      .ok { success := true, websiteId := 1, subdomain := "example-zz99"
            message := "Website already generated (idempotent)"
            alreadyExisted := true } := by
  refine ⟨by decide, by decide, ?_⟩
  exact (generateWebsite_idempotent_completion envAllOk
    { domainId := 0, userId := 9, templateKey := "modernNews"
      contactFormEnabled := true } jobFirstOf2 dbDomainWithWebsite
    { id := 0, domainName := "example.com", status := .PENDING
      selectedMeaning := none }
    { id := 1, domainId := 0, subdomain := "example-zz99"
      templateKey := "modernNews", contactFormEnabled := true }
    (by decide) (by decide)).1

/-! ### Cleanup helper lemmas -/

/-- Deleting the websites of a domain that has none is a no-op (the cascade
has nothing to start from). -/
theorem deleteWebsitesByDomain_noop (db : Db) (i : Nat)
    (h : db.websites.filter (fun w => w.domainId == i) = []) :
    db.deleteWebsitesByDomain i = db := by
  have hall : ∀ w ∈ db.websites, ¬((w.domainId == i) = true) :=
    List.filter_eq_nil_iff.mp h
  unfold Db.deleteWebsitesByDomain
  rw [h]
  cases db with
  | mk ds ws ps ss bs n =>
    simp only [Db.mk.injEq, List.map_nil, and_true, true_and]
    refine ⟨?_, ?_, ?_, ?_⟩
    · exact List.filter_eq_self.mpr fun w hw => by
        simpa using hall w hw
    · exact List.filter_eq_self.mpr fun p _ => by simp [List.contains]
    · exact List.filter_eq_self.mpr fun s _ => by simp [List.contains]
    · exact List.filter_eq_self.mpr fun b _ => by simp [List.contains]

/-- When the domain is gone and it has no website row, the compensating
cleanup leaves the run state untouched and never surfaces an error,
whatever faults are injected into it. -/
theorem cleanupGenWebsite_noop (env : Env) (i : Nat) (s : RunSt)
    (hdom : s.db.findDomain i = none)
    (hcons : s.db.websites.filter (fun w => w.domainId == i) = []) :
    cleanupGenWebsite env i s = (.ok (), s) := by
  unfold cleanupGenWebsite
  cases hdel : env.cleanup.deleteWebsitesFails with
  | some e => simp [hdel]
  | none =>
    cases hfind : env.cleanup.findDomainFails with
    | some e => simp [hdel, hfind, deleteWebsitesByDomain_noop s.db i hcons]
    | none =>
      have hd : (s.db.deleteWebsitesByDomain i).findDomain i = none := by
        rw [deleteWebsitesByDomain_noop s.db i hcons]; exact hdom
      simp [hdel, hfind, deleteWebsitesByDomain_noop s.db i hcons, hdom]

/-! ### Claim C4 (confirmed) -/

/-- C4: when the target domain no longer exists, the attempt fails with the
`Domain not found` error before any row is created or remote call made, the
job's permitted attempts are forced to one, and no retry will be scheduled;
given the referential integrity fact that a deleted domain has no website
row, the store is left exactly as found. -/
theorem generateWebsite_domain_deleted (env : Env)
    (data : WebsiteGenerationJob) (job : JobView) (db : Db)
    (hdom : db.findDomain data.domainId = none)
    (hcons : db.websites.filter (fun w => w.domainId == data.domainId) = []) :
    (runGenWebsite env data job db).1 = .error .domainNotFound ∧
    (runGenWebsite env data job db).2.events.filter Event.isCreated = [] ∧
    (runGenWebsite env data job db).2.events.filter Event.isRemoteCall = [] ∧
    attemptsOr1 (runGenWebsite env data job db).2.job.opts.attempts = 1 ∧
    (runGenWebsite env data job db).2.job.willRetry = false ∧
    (runGenWebsite env data job db).2.db = db := by
  unfold runGenWebsite processGenerateWebsite genWebsiteBody
  rcases job with ⟨made, ⟨attempts⟩⟩
  have hnoop := fun (s : RunSt) (h1 : s.db.findDomain data.domainId = none)
    (h2 : s.db.websites.filter (fun w => w.domainId == data.domainId) = []) =>
    cleanupGenWebsite_noop env data.domainId s h1 h2
  cases attempts with
  | none =>
    simp [M.tryCatch, hdom, attemptsOr1, JobView.willRetry,
      hnoop { db := db, events := [.progress 10], job := ⟨made, ⟨none⟩⟩ } hdom hcons,
      Event.isCreated, Event.isRemoteCall]
  | some k =>
    by_cases hk : k = 0
    · subst hk
      simp [M.tryCatch, hdom, attemptsOr1, JobView.willRetry,
        hnoop { db := db, events := [.progress 10], job := ⟨made, ⟨some 0⟩⟩ } hdom hcons,
        Event.isCreated, Event.isRemoteCall]
    · simp [M.tryCatch, hdom, attemptsOr1, hk, JobView.willRetry,
        hnoop { db := db, events := [.progress 10], job := ⟨made, ⟨some 1⟩⟩ } hdom hcons,
        Event.isCreated, Event.isRemoteCall]

/-- C4 witness: a job for deleted domain 5 against the empty store, enqueued
with `attempts: 2` on its first attempt. -/
theorem generateWebsite_domain_deleted_witness :
    dbEmpty.findDomain 5 = none ∧
    (runGenWebsite envRemoteDown
        { domainId := 5, userId := 1, templateKey := "modernNews"
          contactFormEnabled := true } jobFirstOf2 dbEmpty).1 =
      .error .domainNotFound ∧
    (runGenWebsite envRemoteDown
        { domainId := 5, userId := 1, templateKey := "modernNews"
          contactFormEnabled := true } jobFirstOf2 dbEmpty).2.job.willRetry = false :=
  ⟨by decide,
   (generateWebsite_domain_deleted envRemoteDown
      { domainId := 5, userId := 1, templateKey := "modernNews"
        contactFormEnabled := true } jobFirstOf2 dbEmpty
      (by decide) (by decide)).1,
   (generateWebsite_domain_deleted envRemoteDown
      { domainId := 5, userId := 1, templateKey := "modernNews"
        contactFormEnabled := true } jobFirstOf2 dbEmpty
      (by decide) (by decide)).2.2.2.2.1⟩

/-! ### Claim C10 (confirmed) -/

/-- C10: a `generate-more-blogs` job whose website exists but has no page at
slug `/` fails (the JS dereference of `pages[0]` throws) before any
remote-generator call and before any row creation; the store is unchanged. -/
theorem moreBlogs_no_home_page (env : Env) (data : MoreBlogsJob)
    (job : JobView) (db : Db) (w : Website)
    (hw : db.findWebsiteById data.websiteId = some w)
    (hhp : db.homePages w.id = []) :
    (runMoreBlogs env data job db).1 = .error .undefinedAccess ∧
    (runMoreBlogs env data job db).2.db = db ∧
    (runMoreBlogs env data job db).2.events.filter Event.isRemoteCall = [] ∧
    (runMoreBlogs env data job db).2.events.filter Event.isCreated = [] := by
  unfold runMoreBlogs processGenerateMoreBlogs moreBlogsBody
  simp [M.tryCatch, hw, hhp, Event.isCreated, Event.isRemoteCall]

/-- C10 witness: website 1 of `dbWebsiteNoHome` has no home page. -/
theorem moreBlogs_no_home_page_witness :
    dbWebsiteNoHome.findWebsiteById 1 =
      some { id := 1, domainId := 0, subdomain := "example-zz99"
             templateKey := "modernNews", contactFormEnabled := true } ∧
    dbWebsiteNoHome.homePages 1 = [] ∧
    (runMoreBlogs envAllOk { websiteId := 1, userId := 7, quantity := some 2 }
        jobFirstOf2 dbWebsiteNoHome).1 = .error .undefinedAccess ∧
    (runMoreBlogs envAllOk { websiteId := 1, userId := 7, quantity := some 2 }
        jobFirstOf2 dbWebsiteNoHome).2.db = dbWebsiteNoHome :=
  ⟨by decide, by decide,
   (moreBlogs_no_home_page envAllOk
      { websiteId := 1, userId := 7, quantity := some 2 } jobFirstOf2
      dbWebsiteNoHome
      { id := 1, domainId := 0, subdomain := "example-zz99"
        templateKey := "modernNews", contactFormEnabled := true }
      (by decide) (by decide)).1,
   (moreBlogs_no_home_page envAllOk
      { websiteId := 1, userId := 7, quantity := some 2 } jobFirstOf2
      dbWebsiteNoHome
      { id := 1, domainId := 0, subdomain := "example-zz99"
        templateKey := "modernNews", contactFormEnabled := true }
      (by decide) (by decide)).2.1⟩

/-! ### Arithmetic facts about the per-blog progress values -/

theorem gwProgressVal_gt_50 (n i : Nat) (h : 0 < n) : 50 < gwProgressVal n i := by
  unfold gwProgressVal
  have hn : (0 : ℚ) < n := by exact_mod_cast h
  have hx : (0 : ℚ) < ((i : ℚ) + 1) / n := div_pos (by positivity) hn
  nlinarith

theorem gwProgressVal_le_80 (n i : Nat) (h : i + 1 ≤ n) : gwProgressVal n i ≤ 80 := by
  unfold gwProgressVal
  have hn : (0 : ℚ) < n := by exact_mod_cast Nat.lt_of_lt_of_le (Nat.succ_pos i) h
  have hx : ((i : ℚ) + 1) / n ≤ 1 := by
    rw [div_le_one hn]
    exact_mod_cast h
  nlinarith

theorem gwProgressVal_mono (n i j : Nat) (h : 0 < n) (hij : i ≤ j) :
    gwProgressVal n i ≤ gwProgressVal n j := by
  unfold gwProgressVal
  have hn : (0 : ℚ) < n := by exact_mod_cast h
  have hx : ((i : ℚ) + 1) / n ≤ ((j : ℚ) + 1) / n :=
    (div_le_div_iff_of_pos_right hn).mpr (by exact_mod_cast Nat.succ_le_succ hij)
  nlinarith

theorem mbProgressVal_gt_40 (n i : Nat) (h : 0 < n) : 40 < mbProgressVal n i := by
  unfold mbProgressVal
  have hn : (0 : ℚ) < n := by exact_mod_cast h
  have hx : (0 : ℚ) < ((i : ℚ) + 1) / n := div_pos (by positivity) hn
  nlinarith

theorem mbProgressVal_le_90 (n i : Nat) (h : i + 1 ≤ n) : mbProgressVal n i ≤ 90 := by
  unfold mbProgressVal
  have hn : (0 : ℚ) < n := by exact_mod_cast Nat.lt_of_lt_of_le (Nat.succ_pos i) h
  have hx : ((i : ℚ) + 1) / n ≤ 1 := by
    rw [div_le_one hn]
    exact_mod_cast h
  nlinarith

theorem mbProgressVal_mono (n i j : Nat) (h : 0 < n) (hij : i ≤ j) :
    mbProgressVal n i ≤ mbProgressVal n j := by
  unfold mbProgressVal
  have hn : (0 : ℚ) < n := by exact_mod_cast h
  have hx : ((i : ℚ) + 1) / n ≤ ((j : ℚ) + 1) / n :=
    (div_le_div_iff_of_pos_right hn).mpr (by exact_mod_cast Nat.succ_le_succ hij)
  nlinarith

/-! ### One-iteration unfoldings of the two generation loops -/

theorem contentLoopGW_step (env : Env) (pid n i : Nat) (title : String)
    (rest : List String) (s : RunSt) (c u : String)
    (hb : env.ai.blog i title = .ok c)
    (hi : env.ai.image i ("Professional image for: " ++ title) = .ok u) :
    contentLoopGW env pid n i (title :: rest) s =
      contentLoopGW env pid n (i + 1) rest
        { db := { s.db with
            sections := s.db.sections ++
              [{ id := s.db.nextId, pageId := pid
                 sectionType := "content", orderIndex := i }]
            blocks := s.db.blocks ++
              [ { id := s.db.nextId + 1, sectionId := s.db.nextId
                  blockType := "text", content := .titleText title }
              , { id := s.db.nextId + 2, sectionId := s.db.nextId
                  blockType := "text", content := .fullText c }
              , { id := s.db.nextId + 3, sectionId := s.db.nextId
                  blockType := "text", content := .previewText (c.take 300 ++ "...") }
              , { id := s.db.nextId + 4, sectionId := s.db.nextId
                  blockType := "image", content := .imageRef u title } ]
            nextId := s.db.nextId + 5 }
          events := s.events ++
            [ .remoteCall .blog, .remoteCall .image, .created .pageSection
            , .created .contentBlock, .progress (gwProgressVal n i) ]
          job := s.job } := by
  cases s with
  | mk sdb sev sjob =>
    cases sdb with
    | mk ds ws ps ss bs nid =>
      simp [contentLoopGW, hb, hi, List.append_assoc]

theorem contentLoopMB_step (env : Env) (pid maxo n i : Nat) (title : String)
    (rest : List String) (s : RunSt) (c u : String)
    (hb : env.ai.blog i title = .ok c)
    (hi : env.ai.image i ("Professional image for: " ++ title) = .ok u) :
    contentLoopMB env pid maxo n i (title :: rest) s =
      contentLoopMB env pid maxo n (i + 1) rest
        { db := { s.db with
            sections := s.db.sections ++
              [{ id := s.db.nextId, pageId := pid
                 sectionType := "content", orderIndex := maxo + i + 1 }]
            blocks := s.db.blocks ++
              [ { id := s.db.nextId + 1, sectionId := s.db.nextId
                  blockType := "text", content := .titleText title }
              , { id := s.db.nextId + 2, sectionId := s.db.nextId
                  blockType := "text", content := .fullText c }
              , { id := s.db.nextId + 3, sectionId := s.db.nextId
                  blockType := "text", content := .previewText (c.take 300 ++ "...") }
              , { id := s.db.nextId + 4, sectionId := s.db.nextId
                  blockType := "image", content := .imageRef u title } ]
            nextId := s.db.nextId + 5 }
          events := s.events ++
            [ .remoteCall .blog, .remoteCall .image, .created .pageSection
            , .created .contentBlock, .progress (mbProgressVal n i) ]
          job := s.job } := by
  cases s with
  | mk sdb sev sjob =>
    cases sdb with
    | mk ds ws ps ss bs nid =>
      simp [contentLoopMB, hb, hi, List.append_assoc]

/-! ### Progress emitted by the generation loops -/

theorem contentLoopGW_progress (env : Env) (pid n : Nat) (ts : List String) :
    ∀ (i : Nat) (s : RunSt), i + ts.length ≤ n →
    ∃ Δ, progressSeq (contentLoopGW env pid n i ts s).2.events
        = progressSeq s.events ++ Δ ∧
      Δ.Sorted (· ≤ ·) ∧
      ∀ v ∈ Δ, gwProgressVal n i ≤ v ∧ 50 < v ∧ v ≤ 80 := by
  induction ts with
  | nil =>
    intro i s _
    exact ⟨[], by simp [contentLoopGW], List.sorted_nil, by simp⟩
  | cons title rest ih =>
    intro i s hle
    simp only [List.length_cons] at hle
    have hn : 0 < n := by omega
    cases hb : env.ai.blog i title with
    | error e =>
      refine ⟨[], ?_, List.sorted_nil, by simp⟩
      simp [contentLoopGW, hb, progressSeq]
    | ok c =>
      cases hi : env.ai.image i ("Professional image for: " ++ title) with
      | error e =>
        refine ⟨[], ?_, List.sorted_nil, by simp⟩
        simp [contentLoopGW, hb, hi, progressSeq]
      | ok u =>
        rw [contentLoopGW_step env pid n i title rest s c u hb hi]
        obtain ⟨Δ, hΔ, hsort, hbound⟩ := ih (i + 1) _ (by omega)
        refine ⟨gwProgressVal n i :: Δ, ?_, ?_, ?_⟩
        · rw [hΔ]
          simp [progressSeq]
        · exact List.sorted_cons.mpr
            ⟨fun b hb' =>
              le_trans (gwProgressVal_mono n i (i + 1) hn (Nat.le_succ i))
                (hbound b hb').1,
              hsort⟩
        · intro v hv
          rcases List.mem_cons.mp hv with rfl | hv'
          · exact ⟨le_refl _, gwProgressVal_gt_50 n i hn,
              gwProgressVal_le_80 n i (by omega)⟩
          · obtain ⟨h1, h2, h3⟩ := hbound v hv'
            exact ⟨le_trans (gwProgressVal_mono n i (i + 1) hn (Nat.le_succ i)) h1,
              h2, h3⟩

theorem contentLoopMB_progress (env : Env) (pid maxo n : Nat) (ts : List String) :
    ∀ (i : Nat) (s : RunSt), i + ts.length ≤ n →
    ∃ Δ, progressSeq (contentLoopMB env pid maxo n i ts s).2.events
        = progressSeq s.events ++ Δ ∧
      Δ.Sorted (· ≤ ·) ∧
      ∀ v ∈ Δ, mbProgressVal n i ≤ v ∧ 40 < v ∧ v ≤ 90 := by
  induction ts with
  | nil =>
    intro i s _
    exact ⟨[], by simp [contentLoopMB], List.sorted_nil, by simp⟩
  | cons title rest ih =>
    intro i s hle
    simp only [List.length_cons] at hle
    have hn : 0 < n := by omega
    cases hb : env.ai.blog i title with
    | error e =>
      refine ⟨[], ?_, List.sorted_nil, by simp⟩
      simp [contentLoopMB, hb, progressSeq]
    | ok c =>
      cases hi : env.ai.image i ("Professional image for: " ++ title) with
      | error e =>
        refine ⟨[], ?_, List.sorted_nil, by simp⟩
        simp [contentLoopMB, hb, hi, progressSeq]
      | ok u =>
        rw [contentLoopMB_step env pid maxo n i title rest s c u hb hi]
        obtain ⟨Δ, hΔ, hsort, hbound⟩ := ih (i + 1) _ (by omega)
        refine ⟨mbProgressVal n i :: Δ, ?_, ?_, ?_⟩
        · rw [hΔ]
          simp [progressSeq]
        · exact List.sorted_cons.mpr
            ⟨fun b hb' =>
              le_trans (mbProgressVal_mono n i (i + 1) hn (Nat.le_succ i))
                (hbound b hb').1,
              hsort⟩
        · intro v hv
          rcases List.mem_cons.mp hv with rfl | hv'
          · exact ⟨le_refl _, mbProgressVal_gt_40 n i hn,
              mbProgressVal_le_90 n i (by omega)⟩
          · obtain ⟨h1, h2, h3⟩ := hbound v hv'
            exact ⟨le_trans (mbProgressVal_mono n i (i + 1) hn (Nat.le_succ i)) h1,
              h2, h3⟩

/-! ### Rows created by the generation loops when the generator succeeds -/

theorem contentLoopGW_sections (env : Env) (pid n : Nat) (ts : List String)
    (hblog : ∀ j t, ∃ c, env.ai.blog j t = .ok c)
    (himg : ∀ j p, ∃ u, env.ai.image j p = .ok u) :
    ∀ (i : Nat) (s : RunSt),
    (contentLoopGW env pid n i ts s).1 = .ok () ∧
    (contentLoopGW env pid n i ts s).2.db.domains = s.db.domains ∧
    (contentLoopGW env pid n i ts s).2.db.websites = s.db.websites ∧
    (contentLoopGW env pid n i ts s).2.db.pages = s.db.pages ∧
    ∃ news, (contentLoopGW env pid n i ts s).2.db.sections = s.db.sections ++ news ∧
      news.map (fun sec => (sec.pageId, sec.sectionType, sec.orderIndex))
        = (List.range' i ts.length).map (fun j => (pid, "content", j)) := by
  induction ts with
  | nil =>
    intro i s
    refine ⟨rfl, rfl, rfl, rfl, [], by simp [contentLoopGW], by simp⟩
  | cons title rest ih =>
    intro i s
    obtain ⟨c, hb⟩ := hblog i title
    obtain ⟨u, hi⟩ := himg i ("Professional image for: " ++ title)
    rw [contentLoopGW_step env pid n i title rest s c u hb hi]
    obtain ⟨hout, hdoms, hwebs, hpages, news, hsecs, hmap⟩ := ih (i + 1) _
    refine ⟨hout, by simpa using hdoms, by simpa using hwebs, by simpa using hpages,
      { id := s.db.nextId, pageId := pid
        sectionType := "content", orderIndex := i } :: news, ?_, ?_⟩
    · rw [hsecs]
      simp
    · simp only [List.length_cons, List.range'_succ, List.map_cons, List.map_map, hmap]

theorem contentLoopMB_sections (env : Env) (pid maxo n : Nat) (ts : List String)
    (hblog : ∀ j t, ∃ c, env.ai.blog j t = .ok c)
    (himg : ∀ j p, ∃ u, env.ai.image j p = .ok u) :
    ∀ (i : Nat) (s : RunSt),
    (contentLoopMB env pid maxo n i ts s).1 = .ok () ∧
    (contentLoopMB env pid maxo n i ts s).2.db.domains = s.db.domains ∧
    (contentLoopMB env pid maxo n i ts s).2.db.websites = s.db.websites ∧
    (contentLoopMB env pid maxo n i ts s).2.db.pages = s.db.pages ∧
    ∃ news, (contentLoopMB env pid maxo n i ts s).2.db.sections = s.db.sections ++ news ∧
      news.map (fun sec => (sec.pageId, sec.sectionType, sec.orderIndex))
        = (List.range' i ts.length).map (fun j => (pid, "content", maxo + j + 1)) := by
  induction ts with
  | nil =>
    intro i s
    refine ⟨rfl, rfl, rfl, rfl, [], by simp [contentLoopMB], by simp⟩
  | cons title rest ih =>
    intro i s
    obtain ⟨c, hb⟩ := hblog i title
    obtain ⟨u, hi⟩ := himg i ("Professional image for: " ++ title)
    rw [contentLoopMB_step env pid maxo n i title rest s c u hb hi]
    obtain ⟨hout, hdoms, hwebs, hpages, news, hsecs, hmap⟩ := ih (i + 1) _
    refine ⟨hout, by simpa using hdoms, by simpa using hwebs, by simpa using hpages,
      { id := s.db.nextId, pageId := pid
        sectionType := "content", orderIndex := maxo + i + 1 } :: news, ?_, ?_⟩
    · rw [hsecs]
      simp
    · simp only [List.length_cons, List.range'_succ, List.map_cons, List.map_map, hmap]

/-! ### The compensating-cleanup block never surfaces its own failure -/

theorem cleanupGenWebsite_out (env : Env) (i : Nat) (s : RunSt) :
    (cleanupGenWebsite env i s).1 = .ok () ∧
    (cleanupGenWebsite env i s).2.events = s.events ∧
    (cleanupGenWebsite env i s).2.job = s.job := by
  unfold cleanupGenWebsite
  cases hd : env.cleanup.deleteWebsitesFails with
  | some e => simp
  | none =>
    cases hf : env.cleanup.findDomainFails with
    | some e => simp [hd, hf]
    | none =>
      cases hm : (s.db.deleteWebsitesByDomain i).findDomain i with
      | none => simp [hd, hf, hm]
      | some d =>
        cases hu : env.cleanup.updateDomainFails with
        | some e => simp [hd, hf, hm, hu]
        | none => simp [hd, hf, hm, hu]

/-- With no injected faults, cleanup deletes the domain's websites (cascade)
and then resets the domain's status to `PENDING` only if it still exists. -/
theorem cleanupGenWebsite_db (env : Env) (i : Nat) (s : RunSt)
    (hc : env.cleanup = ⟨none, none, none⟩) :
    (cleanupGenWebsite env i s).2.db =
      (match (s.db.deleteWebsitesByDomain i).findDomain i with
       | some _ => (s.db.deleteWebsitesByDomain i).updateDomainStatus i .PENDING
       | none => s.db.deleteWebsitesByDomain i) := by
  unfold cleanupGenWebsite
  cases hm : (s.db.deleteWebsitesByDomain i).findDomain i with
  | none => simp [hc, hm]
  | some d => simp [hc, hm]

/-- When the body of `processGenerateWebsite` throws, the whole processor
rethrows that same error (cleanup cannot mask it) and reports no further
progress. -/
theorem processGenerateWebsite_error (env : Env) (data : WebsiteGenerationJob)
    (s0 : RunSt) (e : JsErr) (st : RunSt)
    (hbody : genWebsiteBody env data s0 = (.error e, st)) :
    (processGenerateWebsite env data s0).1 = .error e ∧
    (processGenerateWebsite env data s0).2.events = st.events := by
  unfold processGenerateWebsite
  obtain ⟨h1, h2, h3⟩ := cleanupGenWebsite_out env data.domainId st
  rcases hc : cleanupGenWebsite env data.domainId st with ⟨r, s2⟩
  rw [hc] at h1 h2
  simp only at h1 h2
  by_cases hfin : st.job.attemptsMade + 1 ≥ attemptsOr1 st.job.opts.attempts
  · subst h1
    simp [M.tryCatch, hbody, hfin, hc, h2]
  · simp [M.tryCatch, hbody, hfin]

/-! ### Maximum order index (`Math.max(...indexes, 0)`) -/

theorem foldr_max_le (l : List Nat) (m : Nat) (h : ∀ x ∈ l, x ≤ m) :
    l.foldr max 0 ≤ m := by
  induction l with
  | nil => simp
  | cons a l ih =>
    simp only [List.foldr_cons]
    exact max_le (h a (by simp)) (ih fun x hx => h x (by simp [hx]))

theorem le_foldr_max (l : List Nat) (m : Nat) (h : m ∈ l) :
    m ≤ l.foldr max 0 := by
  induction l with
  | nil => cases h
  | cons a l ih =>
    simp only [List.foldr_cons]
    rcases List.mem_cons.mp h with rfl | h'
    · exact le_max_left _ _
    · exact le_trans (ih h') (le_max_right _ _)

/-- `Math.max(...l, 0)` equals the maximum of a nonempty list of naturals. -/
theorem foldr_max_eq (l : List Nat) (m : Nat) (hmem : m ∈ l)
    (hub : ∀ x ∈ l, x ≤ m) : l.foldr max 0 = m :=
  le_antisymm (foldr_max_le l m hub) (le_foldr_max l m hmem)

theorem map_shift_range' (a Q : Nat) :
    (List.range' 0 Q).map (fun j => a + j + 1) = List.range' (a + 1) Q := by
  have h : (fun j => a + j + 1) = ((a + 1) + ·) := by
    funext j
    omega
  rw [h, List.map_add_range' (a + 1) 0 Q 1]

/-! ### Claim C5 (confirmed) -/

/-- C5: a `generate-more-blogs` run for quantity `Q` on a home page whose
existing sections have maximum order index `maxIdx`, with the generator
returning `Q` titles and all per-title calls succeeding, appends exactly `Q`
new sections with order indices `maxIdx + 1, …, maxIdx + Q`; if the page's
order indices were pairwise distinct before, they remain so afterwards. -/
theorem moreBlogs_appends_after_max (env : Env) (data : MoreBlogsJob)
    (job : JobView) (db : Db) (w : Website) (dom : Domain) (hp : Page)
    (restHp : List Page) (Q maxIdx : Nat) (ts : List String)
    (hw : db.findWebsiteById data.websiteId = some w)
    (hhp : db.homePages w.id = hp :: restHp)
    (hdom : db.findDomain w.domainId = some dom)
    (hq : data.quantity = some Q)
    (hts : env.ai.titles (titleTopicOf dom.domainName dom.selectedMeaning) Q = .ok ts)
    (hlen : ts.length = Q)
    (hblog : ∀ j t, ∃ c, env.ai.blog j t = .ok c)
    (himg : ∀ j p, ∃ u, env.ai.image j p = .ok u)
    (hmem : maxIdx ∈ (db.sectionsOfPage hp.id).map (·.orderIndex))
    (hub : ∀ x ∈ (db.sectionsOfPage hp.id).map (·.orderIndex), x ≤ maxIdx) :
    (runMoreBlogs env data job db).1 = .ok { success := true, blogsGenerated := Q } ∧
    ∃ news,
      (runMoreBlogs env data job db).2.db.sections = db.sections ++ news ∧
      news.length = Q ∧
      news.map (·.orderIndex) = List.range' (maxIdx + 1) Q ∧
      (∀ sec ∈ news, sec.pageId = hp.id ∧ sec.sectionType = "content") ∧
      (((db.sectionsOfPage hp.id).map (·.orderIndex)).Nodup →
        (((runMoreBlogs env data job db).2.db.sectionsOfPage hp.id).map
            (·.orderIndex)).Nodup) := by
  have hmax : ((db.sectionsOfPage hp.id).map (·.orderIndex)).foldr max 0 = maxIdx :=
    foldr_max_eq _ _ hmem hub
  obtain ⟨hout, _, _, _, news, hsecs, hmap⟩ :=
    contentLoopMB_sections env hp.id maxIdx ts.length ts hblog himg 0
      { db := db
        events := [.progress 10, .progress 20, .remoteCall .titles, .progress 40]
        job := job }
  rcases hloop : contentLoopMB env hp.id maxIdx ts.length 0 ts
      { db := db
        events := [.progress 10, .progress 20, .remoteCall .titles, .progress 40]
        job := job } with ⟨res, stL⟩
  rw [hloop] at hout hsecs
  simp only at hout hsecs
  subst hout
  have hnews_pid : ∀ sec ∈ news, sec.pageId = hp.id ∧ sec.sectionType = "content" := by
    intro sec hsec
    have hmem2 : (sec.pageId, sec.sectionType, sec.orderIndex) ∈
        (List.range' 0 ts.length).map (fun j => (hp.id, "content", maxIdx + j + 1)) := by
      rw [← hmap]
      exact List.mem_map_of_mem _ hsec
    obtain ⟨j, _, hj⟩ := List.mem_map.mp hmem2
    exact ⟨(Prod.mk.injEq .. |>.mp hj.symm).1.symm ▸ rfl,
      by
        have := hj
        simp only [Prod.mk.injEq] at this
        exact this.2.1.symm⟩
  have hnews_oi : news.map (·.orderIndex) = List.range' (maxIdx + 1) Q := by
    have h1 : news.map (·.orderIndex) =
        (news.map (fun sec => (sec.pageId, sec.sectionType, sec.orderIndex))).map
          (fun t => t.2.2) := by
      rw [List.map_map]
      rfl
    rw [h1, hmap, List.map_map]
    have h2 : ((fun t : Nat × String × Nat => t.2.2) ∘
        fun j => (hp.id, "content", maxIdx + j + 1)) = fun j => maxIdx + j + 1 := rfl
    rw [h2, hlen, map_shift_range']
  have hnews_len : news.length = Q := by
    have := congrArg List.length hnews_oi
    simpa using this
  have hrun : runMoreBlogs env data job db =
      (.ok { success := true, blogsGenerated := Q },
       { stL with events := stL.events ++ [.progress 100] }) := by
    unfold runMoreBlogs processGenerateMoreBlogs moreBlogsBody
    simp [M.tryCatch, hw, hhp, hq, hmax, hdom, hts, hloop]
  refine ⟨?_, news, ?_, hnews_len, hnews_oi, hnews_pid, ?_⟩
  · rw [hrun]
  · rw [hrun]
    exact hsecs
  · intro hnd
    rw [hrun]
    show ((stL.db.sectionsOfPage hp.id).map (·.orderIndex)).Nodup
    unfold Db.sectionsOfPage at hnd hub hmem ⊢
    rw [hsecs, List.filter_append]
    have hkeep : news.filter (fun s => s.pageId == hp.id) = news :=
      List.filter_eq_self.mpr fun sec hsec => by
        simp [(hnews_pid sec hsec).1]
    rw [hkeep, List.map_append, hnews_oi]
    rw [List.nodup_append]
    refine ⟨hnd, List.nodup_range' .., ?_⟩
    intro x hx
    have hxle : x ≤ maxIdx := hub x hx
    intro hx2
    have := List.mem_range'_1.mp hx2
    omega

/-- C5 witness: two more blogs on a home page whose sections sit at indices 0
and 4; the new sections land at 5 and 6. -/
theorem moreBlogs_appends_after_max_witness :
    (runMoreBlogs envAllOk { websiteId := 1, userId := 7, quantity := some 2 }
        jobFirstOf2 dbWebsiteWithHome).1 =
      .ok { success := true, blogsGenerated := 2 } ∧
    ∃ news,
      (runMoreBlogs envAllOk { websiteId := 1, userId := 7, quantity := some 2 }
          jobFirstOf2 dbWebsiteWithHome).2.db.sections =
        dbWebsiteWithHome.sections ++ news ∧
      news.map (·.orderIndex) = [5, 6] := by
  obtain ⟨h1, news, h2, _, h4, _, _⟩ :=
    moreBlogs_appends_after_max envAllOk
      { websiteId := 1, userId := 7, quantity := some 2 } jobFirstOf2
      dbWebsiteWithHome
      { id := 1, domainId := 0, subdomain := "example-zz99"
        templateKey := "modernNews", contactFormEnabled := true }
      { id := 0, domainName := "example.com", status := .ACTIVE
        selectedMeaning := none }
      { id := 2, websiteId := 1, slug := "/"
        seoTitle := "example.com - Home"
        seoDescription := "Welcome to example.com" }
      [] 2 4 ["Title 0", "Title 1"]
      (by decide) (by decide) (by decide) rfl rfl rfl
      (fun j t => ⟨"Blog body " ++ toString j, rfl⟩)
      (fun j p => ⟨"https://img/" ++ toString j, rfl⟩)
      (by decide) (by decide)
  exact ⟨h1, news, h2, by rw [h4]; rfl⟩

/-! ### Claim C7 (corrected) -/

/-- Success-path characterization of a completed `generate-website` job returns success with
subdomain `<first domain label>-<random suffix>`, and the Content Store then
holds exactly one home page for the new website, whose sections are exactly
one `content` section per generated title at order indices `0, 1, 2, …` —
there is no hero or footer section. -/
theorem genWebsiteFreshRun (env : Env)
    (data : WebsiteGenerationJob) (job : JobView) (db : Db) (dom : Domain)
    (ts : List String)
    (hdom : db.findDomain data.domainId = some dom)
    (hnoweb : db.findWebsiteByDomain data.domainId = none)
    (hts : env.ai.titles (titleTopicOf dom.domainName dom.selectedMeaning) 3 = .ok ts)
    (hblog : ∀ j t, ∃ c, env.ai.blog j t = .ok c)
    (himg : ∀ j p, ∃ u, env.ai.image j p = .ok u)
    (hfresh : db.Fresh) :
    (runGenWebsite env data job db).1 =
      .ok { success := true, websiteId := db.nextId
            subdomain := jsFirstLabel dom.domainName ++ "-" ++ env.rand
            message := "Website generated successfully", alreadyExisted := false } ∧
    (runGenWebsite env data job db).2.db.pages.filter
        (fun p => p.websiteId == db.nextId) =
      [{ id := db.nextId + 1, websiteId := db.nextId, slug := "/"
         seoTitle := dom.domainName ++ " - Home"
         seoDescription := "Welcome to " ++ dom.domainName }] ∧
    ((runGenWebsite env data job db).2.db.sectionsOfPage (db.nextId + 1)).map
        (fun sec => (sec.sectionType, sec.orderIndex)) =
      (List.range' 0 ts.length).map (fun j => ("content", j)) := by
  obtain ⟨hout, hdoms, hwebs, hpages, news, hsecs, hmap⟩ :=
    contentLoopGW_sections env (db.nextId + 1) ts.length ts hblog himg 0
      { db := { db with
          websites := db.websites ++
            [{ id := db.nextId, domainId := data.domainId
               subdomain := jsFirstLabel dom.domainName ++ "-" ++ env.rand
               templateKey := data.templateKey
               contactFormEnabled := data.contactFormEnabled }]
          pages := db.pages ++
            [{ id := db.nextId + 1, websiteId := db.nextId, slug := "/"
               seoTitle := dom.domainName ++ " - Home"
               seoDescription := "Welcome to " ++ dom.domainName }]
          nextId := db.nextId + 1 + 1 }
        events := [.progress 10, .progress 20, .created .website, .progress 30
                   , .created .page, .progress 40, .remoteCall .titles, .progress 50]
        job := job }
  rcases hloop : contentLoopGW env (db.nextId + 1) ts.length 0 ts
      { db := { db with
          websites := db.websites ++
            [{ id := db.nextId, domainId := data.domainId
               subdomain := jsFirstLabel dom.domainName ++ "-" ++ env.rand
               templateKey := data.templateKey
               contactFormEnabled := data.contactFormEnabled }]
          pages := db.pages ++
            [{ id := db.nextId + 1, websiteId := db.nextId, slug := "/"
               seoTitle := dom.domainName ++ " - Home"
               seoDescription := "Welcome to " ++ dom.domainName }]
          nextId := db.nextId + 1 + 1 }
        events := [.progress 10, .progress 20, .created .website, .progress 30
                   , .created .page, .progress 40, .remoteCall .titles, .progress 50]
        job := job } with ⟨res, stL⟩
  rw [hloop] at hout hdoms hwebs hpages hsecs
  simp only at hout hdoms hwebs hpages hsecs
  subst hout
  have hrun : runGenWebsite env data job db =
      (.ok { success := true, websiteId := db.nextId
             subdomain := jsFirstLabel dom.domainName ++ "-" ++ env.rand
             message := "Website generated successfully", alreadyExisted := false },
       { stL with
         db := stL.db.updateDomainStatus data.domainId .ACTIVE
         events := stL.events ++ [.progress 90, .progress 100] }) := by
    unfold runGenWebsite processGenerateWebsite genWebsiteBody generatePageContent
    simp [M.tryCatch, hdom, hnoweb, hts, hloop, List.append_assoc]
  refine ⟨?_, ?_, ?_⟩
  · rw [hrun]
  · rw [hrun]
    show (stL.db.updateDomainStatus data.domainId .ACTIVE).pages.filter
        (fun p => p.websiteId == db.nextId) = _
    have hp2 : (stL.db.updateDomainStatus data.domainId .ACTIVE).pages = stL.db.pages := rfl
    rw [hp2, hpages]
    rw [List.filter_append]
    have hold : db.pages.filter (fun p => p.websiteId == db.nextId) = [] := by
      apply List.filter_eq_nil_iff.mpr
      intro p hp
      have := (hfresh.2.2.1 p hp).2
      simp only [beq_iff_eq]
      omega
    rw [hold]
    simp
  · rw [hrun]
    show ((stL.db.updateDomainStatus data.domainId .ACTIVE).sectionsOfPage
        (db.nextId + 1)).map (fun sec => (sec.sectionType, sec.orderIndex)) = _
    have hs2 : (stL.db.updateDomainStatus data.domainId .ACTIVE).sectionsOfPage
        (db.nextId + 1) = stL.db.sections.filter
          (fun s => s.pageId == db.nextId + 1) := rfl
    rw [hs2, hsecs]
    rw [List.filter_append]
    have hold : db.sections.filter (fun s => s.pageId == db.nextId + 1) = [] := by
      apply List.filter_eq_nil_iff.mpr
      intro s hs
      have := (hfresh.2.2.2.1 s hs).2
      simp only [beq_iff_eq]
      omega
    have hkeep : news.filter (fun s => s.pageId == db.nextId + 1) = news := by
      apply List.filter_eq_self.mpr
      intro sec hsec
      have hmem2 : (sec.pageId, sec.sectionType, sec.orderIndex) ∈
          (List.range' 0 ts.length).map
            (fun j => (db.nextId + 1, "content", j)) := by
        rw [← hmap]
        exact List.mem_map_of_mem _ hsec
      obtain ⟨j, _, hj⟩ := List.mem_map.mp hmem2
      simp only [Prod.mk.injEq] at hj
      simp [← hj.1]
    rw [hold, hkeep]
    simp only [List.nil_append]
    have h1 : news.map (fun sec => (sec.sectionType, sec.orderIndex)) =
        (news.map (fun sec => (sec.pageId, sec.sectionType, sec.orderIndex))).map
          (fun t => t.2) := by
      rw [List.map_map]
      rfl
    rw [h1, hmap, List.map_map]
    rfl

/-- C7 counterexample: a completed `generate-website` job for `example.com`
leaves the home page with exactly THREE sections, all of type `content`
(order indices 0, 1, 2) — not five sections with a hero and a footer.  The
result's subdomain is the domain's first label plus the random suffix. -/
theorem generateWebsite_home_sections_counterexample :
    (runGenWebsite envAllOk
        { domainId := 0, userId := 9, templateKey := "modernNews"
          contactFormEnabled := true } jobFirstOf2 dbOneDomain).1 =
      .ok { success := true, websiteId := 1, subdomain := "example-ab12"
            message := "Website generated successfully", alreadyExisted := false } ∧
    ((runGenWebsite envAllOk
        { domainId := 0, userId := 9, templateKey := "modernNews"
          contactFormEnabled := true } jobFirstOf2 dbOneDomain).2.db.sectionsOfPage 2).map
        (fun sec => (sec.sectionType, sec.orderIndex)) =
      [("content", 0), ("content", 1), ("content", 2)] := by
  obtain ⟨h1, _, h3⟩ :=
    genWebsiteFreshRun envAllOk
      { domainId := 0, userId := 9, templateKey := "modernNews"
        contactFormEnabled := true } jobFirstOf2 dbOneDomain
      { id := 0, domainName := "example.com", status := .PENDING
        selectedMeaning := none }
      ["Title 0", "Title 1", "Title 2"]
      (by decide) (by decide) rfl
      (fun j t => ⟨"Blog body " ++ toString j, rfl⟩)
      (fun j p => ⟨"https://img/" ++ toString j, rfl⟩)
      (by decide)
  exact ⟨h1, h3⟩

/-- C7 (amended): a completed `generate-website` job returns success with
subdomain `<first domain label>-<random suffix>`, and the Content Store then
holds exactly one home page for the new website, whose sections are exactly
one `content` section per generated title at order indices `0, 1, 2, …` —
there is no hero or footer section (the claim's five-section hero/footer
layout belongs to the synchronous generation path, not to this job). -/
theorem generateWebsite_success_structure (env : Env)
    (data : WebsiteGenerationJob) (job : JobView) (db : Db) (dom : Domain)
    (ts : List String)
    (hdom : db.findDomain data.domainId = some dom)
    (hnoweb : db.findWebsiteByDomain data.domainId = none)
    (hts : env.ai.titles (titleTopicOf dom.domainName dom.selectedMeaning) 3 = .ok ts)
    (hblog : ∀ j t, ∃ c, env.ai.blog j t = .ok c)
    (himg : ∀ j p, ∃ u, env.ai.image j p = .ok u)
    (hfresh : db.Fresh) :
    (runGenWebsite env data job db).1 =
      .ok { success := true, websiteId := db.nextId
            subdomain := jsFirstLabel dom.domainName ++ "-" ++ env.rand
            message := "Website generated successfully", alreadyExisted := false } ∧
    (runGenWebsite env data job db).2.db.pages.filter
        (fun p => p.websiteId == db.nextId) =
      [{ id := db.nextId + 1, websiteId := db.nextId, slug := "/"
         seoTitle := dom.domainName ++ " - Home"
         seoDescription := "Welcome to " ++ dom.domainName }] ∧
    ((runGenWebsite env data job db).2.db.sectionsOfPage (db.nextId + 1)).map
        (fun sec => (sec.sectionType, sec.orderIndex)) =
      (List.range' 0 ts.length).map (fun j => ("content", j)) :=
  genWebsiteFreshRun env data job db dom ts hdom hnoweb hts hblog himg hfresh

/-- C7 (amended) witness: the concrete `example.com` scenario, template
`modernNews`, generator returning three titles. -/
theorem generateWebsite_success_structure_witness :
    (runGenWebsite envAllOk
        { domainId := 0, userId := 9, templateKey := "modernNews"
          contactFormEnabled := true } jobFirstOf2 dbOneDomain).2.db.pages.filter
        (fun p => p.websiteId == 1) =
      [{ id := 2, websiteId := 1, slug := "/"
         seoTitle := "example.com - Home"
         seoDescription := "Welcome to example.com" }] :=
  (generateWebsite_success_structure envAllOk
    { domainId := 0, userId := 9, templateKey := "modernNews"
      contactFormEnabled := true } jobFirstOf2 dbOneDomain
    { id := 0, domainName := "example.com", status := .PENDING
      selectedMeaning := none }
    ["Title 0", "Title 1", "Title 2"]
    (by decide) (by decide) rfl
    (fun j t => ⟨"Blog body " ++ toString j, rfl⟩)
    (fun j p => ⟨"https://img/" ++ toString j, rfl⟩)
    (by decide)).2.1

/-! ### Effects of the cascade delete and the status reset -/

theorem deleteWebsitesByDomain_no_websites (db : Db) (i : Nat) :
    (db.deleteWebsitesByDomain i).websites.filter
      (fun w => w.domainId == i) = [] := by
  unfold Db.deleteWebsitesByDomain
  apply List.filter_eq_nil_iff.mpr
  intro w hw
  have h := (List.mem_filter.mp hw).2
  simp only [Bool.not_eq_true'] at h
  simp [h]

theorem deleteWebsitesByDomain_cascade_pages (db : Db) (i : Nat) :
    ∀ p ∈ (db.deleteWebsitesByDomain i).pages, ∀ w ∈ db.websites,
      w.domainId = i → p.websiteId ≠ w.id := by
  unfold Db.deleteWebsitesByDomain
  intro p hp w hw hwd heq
  have h := (List.mem_filter.mp hp).2
  apply absurd h
  simp only [Bool.not_eq_true', Bool.not_eq_false]
  apply List.elem_eq_true_of_mem
  rw [heq]
  exact List.mem_map_of_mem _ (List.mem_filter.mpr ⟨hw, by simp [hwd]⟩)

theorem updateDomainStatus_pending (db : Db) (i : Nat) (stt : DomainStatus) :
    ∀ d ∈ (db.updateDomainStatus i stt).domains, d.id = i → d.status = stt := by
  unfold Db.updateDomainStatus
  intro d hd hdi
  obtain ⟨d0, hd0, heq⟩ := List.mem_map.mp hd
  by_cases h : d0.id = i
  · rw [← heq]
    simp [h]
  · exfalso
    rw [← heq] at hdi
    simp only [beq_iff_eq] at hdi
    rw [if_neg (by simpa using h)] at hdi
    exact h hdi

/-! ### Claim C2 (confirmed) -/

/-- C2: when the final permitted attempt of a `generate-website` job fails
with error `e`, the whole processor rethrows `e` — a failure injected into
any cleanup operation never replaces it — and, when the cleanup operations
themselves succeed, the domain's Website rows are gone (with no page left
pointing at them, by the cascade), the domain's status is reset to `PENDING`
if the domain still exists, and the domains table is untouched when the
domain is gone. -/
theorem generateWebsite_final_failure_cleanup (env : Env)
    (data : WebsiteGenerationJob) (job : JobView) (db : Db)
    (e : JsErr) (st : RunSt)
    (hbody : genWebsiteBody env data { db := db, events := [], job := job } =
      (.error e, st))
    (hfinal : st.job.attemptsMade + 1 ≥ attemptsOr1 st.job.opts.attempts) :
    (runGenWebsite env data job db).1 = .error e ∧
    (env.cleanup = ⟨none, none, none⟩ →
      (runGenWebsite env data job db).2.db.websites.filter
          (fun w => w.domainId == data.domainId) = [] ∧
      (∀ p ∈ (runGenWebsite env data job db).2.db.pages,
        ∀ w ∈ st.db.websites, w.domainId = data.domainId → p.websiteId ≠ w.id) ∧
      (∀ d ∈ (runGenWebsite env data job db).2.db.domains,
        d.id = data.domainId → (st.db.findDomain data.domainId).isSome = true →
          d.status = .PENDING) ∧
      (st.db.findDomain data.domainId = none →
        (runGenWebsite env data job db).2.db.domains = st.db.domains)) := by
  have hrun : runGenWebsite env data job db =
      (.error e, (cleanupGenWebsite env data.domainId st).2) := by
    unfold runGenWebsite processGenerateWebsite
    obtain ⟨hok, _, _⟩ := cleanupGenWebsite_out env data.domainId st
    rcases hc : cleanupGenWebsite env data.domainId st with ⟨r, s2⟩
    rw [hc] at hok
    simp only at hok
    subst hok
    simp [M.tryCatch, hbody, hfinal, hc]
  refine ⟨by rw [hrun], ?_⟩
  intro hclean
  have hdb := cleanupGenWebsite_db env data.domainId st hclean
  have hfd : (st.db.deleteWebsitesByDomain data.domainId).findDomain data.domainId =
      st.db.findDomain data.domainId := rfl
  rw [hrun]
  cases hd : st.db.findDomain data.domainId with
  | none =>
    rw [hfd, hd] at hdb
    simp only at hdb
    refine ⟨?_, ?_, ?_, ?_⟩
    · show ((cleanupGenWebsite env data.domainId st).2.db).websites.filter _ = []
      rw [hdb]
      exact deleteWebsitesByDomain_no_websites st.db data.domainId
    · show ∀ p ∈ ((cleanupGenWebsite env data.domainId st).2.db).pages, _
      rw [hdb]
      exact deleteWebsitesByDomain_cascade_pages st.db data.domainId
    · intro d _ _ habs
      simp [hd] at habs
    · intro _
      show ((cleanupGenWebsite env data.domainId st).2.db).domains = _
      rw [hdb]
      rfl
  | some d0 =>
    rw [hfd, hd] at hdb
    simp only at hdb
    refine ⟨?_, ?_, ?_, ?_⟩
    · show ((cleanupGenWebsite env data.domainId st).2.db).websites.filter _ = []
      rw [hdb]
      exact deleteWebsitesByDomain_no_websites st.db data.domainId
    · show ∀ p ∈ ((cleanupGenWebsite env data.domainId st).2.db).pages, _
      rw [hdb]
      exact deleteWebsitesByDomain_cascade_pages st.db data.domainId
    · intro d hdmem hdi _
      rw [hdb] at hdmem
      exact updateDomainStatus_pending _ data.domainId .PENDING d hdmem hdi
    · intro habs
      simp [hd] at habs

/-- C2 witness: the second (final) attempt fails at the title-generation
call after the Website and home Page were created; afterwards no website
remains for the domain and its status is `PENDING`, and the job fails with
the original remote error. -/
theorem generateWebsite_final_failure_cleanup_witness :
    (runGenWebsite envRemoteDown
        { domainId := 0, userId := 9, templateKey := "modernNews"
          contactFormEnabled := true } jobSecondOf2 dbOneDomain).1 =
      .error (.remote 0) ∧
    (runGenWebsite envRemoteDown
        { domainId := 0, userId := 9, templateKey := "modernNews"
          contactFormEnabled := true } jobSecondOf2 dbOneDomain).2.db.websites.filter
        (fun w => w.domainId == 0) = [] ∧
    ∀ d ∈ (runGenWebsite envRemoteDown
        { domainId := 0, userId := 9, templateKey := "modernNews"
          contactFormEnabled := true } jobSecondOf2 dbOneDomain).2.db.domains,
      d.id = 0 → d.status = .PENDING := by
  obtain ⟨h1, h2⟩ :=
    generateWebsite_final_failure_cleanup envRemoteDown
      { domainId := 0, userId := 9, templateKey := "modernNews"
        contactFormEnabled := true } jobSecondOf2 dbOneDomain (.remote 0)
      (genWebsiteBody envRemoteDown
        { domainId := 0, userId := 9, templateKey := "modernNews"
          contactFormEnabled := true }
        { db := dbOneDomain, events := [], job := jobSecondOf2 }).2
      rfl (by decide)
  obtain ⟨hw, _, hstat, _⟩ := h2 rfl
  exact ⟨h1, hw, fun d hd hdi => hstat d hd hdi (by decide)⟩

/-! ### Claim C6: progress monotonicity -/

theorem sorted_append_le (l1 l2 : List ℚ) (h1 : l1.Sorted (· ≤ ·))
    (h2 : l2.Sorted (· ≤ ·)) (h : ∀ a ∈ l1, ∀ b ∈ l2, a ≤ b) :
    (l1 ++ l2).Sorted (· ≤ ·) :=
  List.pairwise_append.mpr ⟨h1, h2, h⟩

theorem processGenerateMoreBlogs_error (env : Env) (data : MoreBlogsJob)
    (s0 : RunSt) (e : JsErr) (st : RunSt)
    (hbody : moreBlogsBody env data s0 = (.error e, st)) :
    processGenerateMoreBlogs env data s0 = (.error e, st) := by
  unfold processGenerateMoreBlogs
  simp [M.tryCatch, hbody]

/-- Progress discipline of one `generate-more-blogs` run: the reported
values are non-decreasing, stay within 0–100, and 100 is reported only when
the run returns successfully. -/
theorem runMoreBlogs_progress (env : Env) (data : MoreBlogsJob)
    (job : JobView) (db : Db) :
    (progressSeq (runMoreBlogs env data job db).2.events).Sorted (· ≤ ·) ∧
    (∀ v ∈ progressSeq (runMoreBlogs env data job db).2.events,
      0 ≤ v ∧ v ≤ 100) ∧
    ((100 : ℚ) ∈ progressSeq (runMoreBlogs env data job db).2.events →
      ∃ r, (runMoreBlogs env data job db).1 = .ok r) := by
  cases hw : db.findWebsiteById data.websiteId with
  | none =>
    have hrun : runMoreBlogs env data job db =
        (.error .websiteNotFound, { db := db, events := [.progress 10], job := job }) := by
      unfold runMoreBlogs processGenerateMoreBlogs moreBlogsBody
      simp [M.tryCatch, hw]
    rw [hrun]
    refine ⟨?_, ?_, ?_⟩
    · simp [progressSeq]
    · intro v hv
      simp [progressSeq] at hv
      norm_num [hv]
    · intro habs
      simp [progressSeq] at habs
  | some w =>
    cases hhp : db.homePages w.id with
    | nil =>
      have hrun : runMoreBlogs env data job db =
          (.error .undefinedAccess,
           { db := db, events := [.progress 10, .progress 20], job := job }) := by
        unfold runMoreBlogs processGenerateMoreBlogs moreBlogsBody
        simp [M.tryCatch, hw, hhp]
      rw [hrun]
      refine ⟨?_, ?_, ?_⟩
      · simp [progressSeq, List.sorted_cons]
        norm_num
      · intro v hv
        simp [progressSeq] at hv
        rcases hv with rfl | rfl <;> norm_num
      · intro habs
        simp [progressSeq] at habs
    | cons hp restHp =>
      cases hdom : db.findDomain w.domainId with
      | none =>
        have hrun : runMoreBlogs env data job db =
            (.error .undefinedAccess,
             { db := db, events := [.progress 10, .progress 20], job := job }) := by
          unfold runMoreBlogs processGenerateMoreBlogs moreBlogsBody
          simp [M.tryCatch, hw, hhp, hdom]
        rw [hrun]
        refine ⟨?_, ?_, ?_⟩
        · simp [progressSeq, List.sorted_cons]
          norm_num
        · intro v hv
          simp [progressSeq] at hv
          rcases hv with rfl | rfl <;> norm_num
        · intro habs
          simp [progressSeq] at habs
      | some dom =>
        cases hts : env.ai.titles (titleTopicOf dom.domainName dom.selectedMeaning)
            (data.quantity.getD 3) with
        | error e =>
          have hrun : runMoreBlogs env data job db =
              (.error e,
               { db := db
                 events := [.progress 10, .progress 20, .remoteCall .titles]
                 job := job }) := by
            unfold runMoreBlogs processGenerateMoreBlogs moreBlogsBody
            simp [M.tryCatch, hw, hhp, hdom, hts]
          rw [hrun]
          refine ⟨?_, ?_, ?_⟩
          · simp [progressSeq, List.sorted_cons]
            norm_num
          · intro v hv
            simp [progressSeq] at hv
            rcases hv with rfl | rfl <;> norm_num
          · intro habs
            simp [progressSeq] at habs
        | ok ts =>
          obtain ⟨Δ, hΔ, hsort, hbound⟩ :=
            contentLoopMB_progress env hp.id
              (((db.sectionsOfPage hp.id).map (·.orderIndex)).foldr max 0)
              ts.length ts 0
              { db := db
                events := [.progress 10, .progress 20, .remoteCall .titles
                           , .progress 40]
                job := job }
              (by omega)
          rcases hloop : contentLoopMB env hp.id
              (((db.sectionsOfPage hp.id).map (·.orderIndex)).foldr max 0)
              ts.length 0 ts
              { db := db
                events := [.progress 10, .progress 20, .remoteCall .titles
                           , .progress 40]
                job := job } with ⟨res, stL⟩
          rw [hloop] at hΔ
          simp only at hΔ
          have hpre : progressSeq
              ({ db := db
                 events := [.progress 10, .progress 20, .remoteCall .titles
                            , .progress 40]
                 job := job } : RunSt).events = [10, 20, 40] := by
            simp [progressSeq]
          rw [hpre] at hΔ
          have hdelta_le : ∀ b ∈ Δ, b ≤ 100 := fun b hb =>
            le_trans (hbound b hb).2.2 (by norm_num)
          have hdelta_ge : ∀ b ∈ Δ, (40 : ℚ) < b := fun b hb => (hbound b hb).2.1
          cases res with
          | error e =>
            have hrun : runMoreBlogs env data job db = (.error e, stL) := by
              unfold runMoreBlogs processGenerateMoreBlogs moreBlogsBody
              simp [M.tryCatch, hw, hhp, hdom, hts, hloop]
            rw [hrun]
            simp only
            rw [hΔ]
            refine ⟨?_, ?_, ?_⟩
            · refine sorted_append_le _ _ (by norm_num [List.sorted_cons]) hsort ?_
              intro a ha b hb
              have := hdelta_ge b hb
              simp at ha
              rcases ha with rfl | rfl | rfl <;> linarith
            · intro v hv
              rcases List.mem_append.mp hv with hv1 | hv2
              · simp at hv1
                rcases hv1 with rfl | rfl | rfl <;> norm_num
              · exact ⟨le_trans (by norm_num) (le_of_lt (hdelta_ge v hv2)),
                  le_trans (hbound v hv2).2.2 (by norm_num)⟩
            · intro habs
              exfalso
              rcases List.mem_append.mp habs with hv1 | hv2
              · simp at hv1
              · have := (hbound _ hv2).2.2
                norm_num at this
          | ok uu =>
            have hrun : runMoreBlogs env data job db =
                (.ok { success := true, blogsGenerated := data.quantity.getD 3 },
                 { stL with events := stL.events ++ [.progress 100] }) := by
              unfold runMoreBlogs processGenerateMoreBlogs moreBlogsBody
              simp [M.tryCatch, hw, hhp, hdom, hts, hloop]
            rw [hrun]
            simp only
            have hfin : progressSeq (stL.events ++ [.progress 100]) =
                ([10, 20, 40] ++ Δ) ++ [100] := by
              rw [progressSeq, List.filterMap_append, ← progressSeq, hΔ]
              rfl
            rw [hfin]
            refine ⟨?_, ?_, ?_⟩
            · refine sorted_append_le _ _ ?_ (by simp) ?_
              · refine sorted_append_le _ _ (by norm_num [List.sorted_cons]) hsort ?_
                intro a ha b hb
                have := hdelta_ge b hb
                simp at ha
                rcases ha with rfl | rfl | rfl <;> linarith
              · intro a ha b hb
                simp at hb
                subst hb
                rcases List.mem_append.mp ha with hv1 | hv2
                · simp at hv1
                  rcases hv1 with rfl | rfl | rfl <;> norm_num
                · linarith [hdelta_le a hv2]
            · intro v hv
              rcases List.mem_append.mp hv with hv0 | hv100
              · rcases List.mem_append.mp hv0 with hv1 | hv2
                · simp at hv1
                  rcases hv1 with rfl | rfl | rfl <;> norm_num
                · exact ⟨le_trans (by norm_num) (le_of_lt (hdelta_ge v hv2)),
                    hdelta_le v hv2⟩
              · simp at hv100
                subst hv100
                norm_num
            · intro _
              exact ⟨_, rfl⟩

/-- Progress discipline of one `generate-website` run: the reported values
are non-decreasing, stay within 0–100, and 100 is reported only when the run
returns successfully. -/
theorem runGenWebsite_progress (env : Env) (data : WebsiteGenerationJob)
    (job : JobView) (db : Db) :
    (progressSeq (runGenWebsite env data job db).2.events).Sorted (· ≤ ·) ∧
    (∀ v ∈ progressSeq (runGenWebsite env data job db).2.events,
      0 ≤ v ∧ v ≤ 100) ∧
    ((100 : ℚ) ∈ progressSeq (runGenWebsite env data job db).2.events →
      ∃ r, (runGenWebsite env data job db).1 = .ok r) := by
  have hrw : runGenWebsite env data job db =
      processGenerateWebsite env data { db := db, events := [], job := job } := rfl
  cases hdom : db.findDomain data.domainId with
  | none =>
    obtain ⟨st, hbody, hev⟩ : ∃ st,
        genWebsiteBody env data { db := db, events := [], job := job } =
          (.error .domainNotFound, st) ∧ st.events = [.progress 10] := by
      rcases job with ⟨made, ⟨att⟩⟩
      cases att with
      | none =>
        exact ⟨{ db := db, events := [.progress 10]
                 job := { attemptsMade := made, opts := { attempts := none } } },
          by simp [genWebsiteBody, hdom], rfl⟩
      | some k =>
        by_cases hk : k = 0
        · subst hk
          exact ⟨{ db := db, events := [.progress 10]
                   job := { attemptsMade := made, opts := { attempts := some 0 } } },
            by simp [genWebsiteBody, hdom], rfl⟩
        · exact ⟨{ db := db, events := [.progress 10]
                   job := { attemptsMade := made, opts := { attempts := some 1 } } },
            by simp [genWebsiteBody, hdom, hk], rfl⟩
    obtain ⟨hrun1, hrun2⟩ :=
      processGenerateWebsite_error env data _ .domainNotFound st hbody
    rw [hrw]
    rw [hrun2, hev]
    refine ⟨by simp [progressSeq], ?_, ?_⟩
    · intro v hv
      simp [progressSeq] at hv
      norm_num [hv]
    · intro habs
      simp [progressSeq] at habs
  | some dom =>
    cases hweb : db.findWebsiteByDomain data.domainId with
    | some w =>
      have hrun : processGenerateWebsite env data
          { db := db, events := [], job := job } =
          (.ok { success := true, websiteId := w.id, subdomain := w.subdomain
                 message := "Website already generated (idempotent)"
                 alreadyExisted := true },
           { db := db, events := [.progress 10, .progress 20], job := job }) := by
        unfold processGenerateWebsite genWebsiteBody
        simp [M.tryCatch, hdom, hweb]
      rw [hrw, hrun]
      refine ⟨?_, ?_, ?_⟩
      · simp [progressSeq, List.sorted_cons]
        norm_num
      · intro v hv
        simp [progressSeq] at hv
        rcases hv with rfl | rfl <;> norm_num
      · intro _
        exact ⟨_, rfl⟩
    | none =>
      cases hts : env.ai.titles (titleTopicOf dom.domainName dom.selectedMeaning) 3 with
      | error e =>
        have hbody : genWebsiteBody env data { db := db, events := [], job := job } =
            (.error e,
             { db := { db with
                 websites := db.websites ++
                   [{ id := db.nextId, domainId := data.domainId
                      subdomain := jsFirstLabel dom.domainName ++ "-" ++ env.rand
                      templateKey := data.templateKey
                      contactFormEnabled := data.contactFormEnabled }]
                 pages := db.pages ++
                   [{ id := db.nextId + 1, websiteId := db.nextId, slug := "/"
                      seoTitle := dom.domainName ++ " - Home"
                      seoDescription := "Welcome to " ++ dom.domainName }]
                 nextId := db.nextId + 1 + 1 }
               events := [.progress 10, .progress 20, .created .website, .progress 30
                          , .created .page, .progress 40, .remoteCall .titles]
               job := job }) := by
          unfold genWebsiteBody generatePageContent
          simp [hdom, hweb, hts, List.append_assoc]
        obtain ⟨hrun1, hrun2⟩ :=
          processGenerateWebsite_error env data _ e _ hbody
        rw [hrw]
        rw [hrun2]
        refine ⟨?_, ?_, ?_⟩
        · simp [progressSeq, List.sorted_cons]
          norm_num
        · intro v hv
          simp [progressSeq] at hv
          rcases hv with rfl | rfl | rfl | rfl <;> norm_num
        · intro habs
          simp [progressSeq] at habs
      | ok ts =>
        obtain ⟨Δ, hΔ, hsort, hbound⟩ :=
          contentLoopGW_progress env (db.nextId + 1) ts.length ts 0
            { db := { db with
                websites := db.websites ++
                  [{ id := db.nextId, domainId := data.domainId
                     subdomain := jsFirstLabel dom.domainName ++ "-" ++ env.rand
                     templateKey := data.templateKey
                     contactFormEnabled := data.contactFormEnabled }]
                pages := db.pages ++
                  [{ id := db.nextId + 1, websiteId := db.nextId, slug := "/"
                     seoTitle := dom.domainName ++ " - Home"
                     seoDescription := "Welcome to " ++ dom.domainName }]
                nextId := db.nextId + 1 + 1 }
              events := [.progress 10, .progress 20, .created .website, .progress 30
                         , .created .page, .progress 40, .remoteCall .titles
                         , .progress 50]
              job := job }
            (by omega)
        rcases hloop : contentLoopGW env (db.nextId + 1) ts.length 0 ts
            { db := { db with
                websites := db.websites ++
                  [{ id := db.nextId, domainId := data.domainId
                     subdomain := jsFirstLabel dom.domainName ++ "-" ++ env.rand
                     templateKey := data.templateKey
                     contactFormEnabled := data.contactFormEnabled }]
                pages := db.pages ++
                  [{ id := db.nextId + 1, websiteId := db.nextId, slug := "/"
                     seoTitle := dom.domainName ++ " - Home"
                     seoDescription := "Welcome to " ++ dom.domainName }]
                nextId := db.nextId + 1 + 1 }
              events := [.progress 10, .progress 20, .created .website, .progress 30
                         , .created .page, .progress 40, .remoteCall .titles
                         , .progress 50]
              job := job } with ⟨res, stL⟩
        rw [hloop] at hΔ
        simp only at hΔ
        have hpre : progressSeq
            [Event.progress 10, .progress 20, .created .website, .progress 30
             , .created .page, .progress 40, .remoteCall .titles, .progress 50] =
            [10, 20, 30, 40, 50] := by
          simp [progressSeq]
        rw [hpre] at hΔ
        have hdelta_le : ∀ b ∈ Δ, b ≤ 100 := fun b hb =>
          le_trans (hbound b hb).2.2 (by norm_num)
        have hdelta_gt : ∀ b ∈ Δ, (50 : ℚ) < b := fun b hb => (hbound b hb).2.1
        cases res with
        | error e =>
          have hbody : genWebsiteBody env data { db := db, events := [], job := job } =
              (.error e, stL) := by
            unfold genWebsiteBody generatePageContent
            simp [hdom, hweb, hts, hloop, List.append_assoc]
          obtain ⟨hrun1, hrun2⟩ :=
            processGenerateWebsite_error env data _ e _ hbody
          rw [hrw]
          rw [hrun2, hΔ]
          refine ⟨?_, ?_, ?_⟩
          · refine sorted_append_le _ _ (by norm_num [List.sorted_cons]) hsort ?_
            intro a ha b hb
            have := hdelta_gt b hb
            simp at ha
            rcases ha with rfl | rfl | rfl | rfl | rfl <;> linarith
          · intro v hv
            rcases List.mem_append.mp hv with hv1 | hv2
            · simp at hv1
              rcases hv1 with rfl | rfl | rfl | rfl | rfl <;> norm_num
            · exact ⟨le_trans (by norm_num) (le_of_lt (hdelta_gt v hv2)),
                le_trans (hbound v hv2).2.2 (by norm_num)⟩
          · intro habs
            exfalso
            rcases List.mem_append.mp habs with hv1 | hv2
            · simp at hv1
            · have := (hbound _ hv2).2.2
              norm_num at this
        | ok uu =>
          have hrun : processGenerateWebsite env data
              { db := db, events := [], job := job } =
              (.ok { success := true, websiteId := db.nextId
                     subdomain := jsFirstLabel dom.domainName ++ "-" ++ env.rand
                     message := "Website generated successfully"
                     alreadyExisted := false },
               { stL with
                 db := stL.db.updateDomainStatus data.domainId .ACTIVE
                 events := stL.events ++ [.progress 90, .progress 100] }) := by
            unfold processGenerateWebsite genWebsiteBody generatePageContent
            simp [M.tryCatch, hdom, hweb, hts, hloop, List.append_assoc]
          rw [hrw, hrun]
          simp only
          have hfin : progressSeq (stL.events ++ [.progress 90, .progress 100]) =
              ([10, 20, 30, 40, 50] ++ Δ) ++ [90, 100] := by
            rw [progressSeq, List.filterMap_append, ← progressSeq, hΔ]
            rfl
          rw [hfin]
          refine ⟨?_, ?_, ?_⟩
          · refine sorted_append_le _ _ ?_ (by norm_num [List.sorted_cons]) ?_
            · refine sorted_append_le _ _ (by norm_num [List.sorted_cons]) hsort ?_
              intro a ha b hb
              have := hdelta_gt b hb
              simp at ha
              rcases ha with rfl | rfl | rfl | rfl | rfl <;> linarith
            · intro a ha b hb
              have hble : (90 : ℚ) ≤ b := by
                simp at hb
                rcases hb with rfl | rfl <;> norm_num
              rcases List.mem_append.mp ha with hv1 | hv2
              · simp at hv1
                rcases hv1 with rfl | rfl | rfl | rfl | rfl <;> linarith
              · have := (hbound a hv2).2.2
                linarith
          · intro v hv
            rcases List.mem_append.mp hv with hv0 | hv90
            · rcases List.mem_append.mp hv0 with hv1 | hv2
              · simp at hv1
                rcases hv1 with rfl | rfl | rfl | rfl | rfl <;> norm_num
              · exact ⟨le_trans (by norm_num) (le_of_lt (hdelta_gt v hv2)),
                  hdelta_le v hv2⟩
            · simp at hv90
              rcases hv90 with rfl | rfl <;> norm_num
          · intro _
            exact ⟨_, rfl⟩

/-- C6: within any single run of either job type the reported progress
values are monotonically non-decreasing, stay within 0–100, and 100 is
reported only by a run that terminates successfully. -/
theorem progress_monotone_bounded (env : Env) (dataW : WebsiteGenerationJob)
    (dataM : MoreBlogsJob) (job : JobView) (db : Db) :
    ((progressSeq (runGenWebsite env dataW job db).2.events).Sorted (· ≤ ·) ∧
     (∀ v ∈ progressSeq (runGenWebsite env dataW job db).2.events,
       0 ≤ v ∧ v ≤ 100) ∧
     ((100 : ℚ) ∈ progressSeq (runGenWebsite env dataW job db).2.events →
       ∃ r, (runGenWebsite env dataW job db).1 = .ok r)) ∧
    ((progressSeq (runMoreBlogs env dataM job db).2.events).Sorted (· ≤ ·) ∧
     (∀ v ∈ progressSeq (runMoreBlogs env dataM job db).2.events,
       0 ≤ v ∧ v ≤ 100) ∧
     ((100 : ℚ) ∈ progressSeq (runMoreBlogs env dataM job db).2.events →
       ∃ r, (runMoreBlogs env dataM job db).1 = .ok r)) :=
  ⟨runGenWebsite_progress env dataW job db, runMoreBlogs_progress env dataM job db⟩

end CmsBackend
